import Mathlib

/-!
# Xilinx SPDIF controller (`sound/soc/xilinx/xlnx_spdif.c`)

A shallow embedding of the DAI callbacks of the Xilinx SPDIF driver:
clock-divider selection and control-register programming in
`xlnx_spdif_hw_params`, the FIFO flush in `xlnx_spdif_startup`, the
channel-status interrupt handler, the bounded stream detection,
`xlnx_spdif_trigger`, and the clock handling of `xlnx_spdif_probe`.

Machine integers are natural numbers reduced explicitly: `u32` values modulo
`2 ^ 32`, `unsigned long` values modulo `2 ^ BITS_PER_LONG`.  The register
window is a map from byte offset to the 32-bit word last stored there,
together with the sequence of `writel` calls performed so far.
-/

namespace XlnxSpdif

/-! ## Machine words and kernel helper macros -/

/-- Width of `unsigned long` on arm64, the architecture of the Zynq UltraScale+
MPSoC this kernel tree targets. -/
def BITS_PER_LONG : Nat := 64

/-- Truncation of a value to `u32` / `unsigned int`. -/
def u32 (x : Nat) : Nat := x % 2 ^ 32

/-- Truncation of a value to `unsigned long`. -/
def ulong (x : Nat) : Nat := x % 2 ^ BITS_PER_LONG

/-- Bitwise complement `~x` of an `unsigned long` operand. -/
def bnot (x : Nat) : Nat := (2 ^ BITS_PER_LONG - 1) ^^^ x

/-- Kernel helper `BIT(n)`, the `unsigned long` constant `1UL << n`
(`include/linux/bits.h`, outside the files embedded here). -/
def BIT (n : Nat) : Nat := ulong (1 <<< n)

/-- Kernel helper `GENMASK(h, l)`, the `unsigned long` constant with bits
`l .. h` set (`include/linux/bits.h`, outside the files embedded here). -/
def GENMASK (h l : Nat) : Nat :=
  ulong (bnot 0 - ulong (1 <<< l) + 1) &&& (bnot 0 >>> (BITS_PER_LONG - 1 - h))

/-- Modelled from the spec: the macro `DIV_ROUND_CLOSEST` of
`include/linux/kernel.h` is not among the embedded files.  The specification
describes it as round-half-up on the integer division; for an `unsigned long`
dividend `x` and an `unsigned int` divisor `d` that is `(x + d / 2) / d`
evaluated in `unsigned long`.  A zero divisor is a division by zero, which has
no defined result: `none`. -/
def DIV_ROUND_CLOSEST (x d : Nat) : Option Nat :=
  if d = 0 then none else some (ulong (x + d / 2) / d)

/-! ## Register map and constants (lines 26-53) -/

def XSPDIF_IRQ_STS_REG : Nat := 0x20
def XSPDIF_IRQ_STS_CH_STS_MASK : Nat := BIT 5
def XSPDIF_IRQ_ENABLE_REG : Nat := 0x28
def XSPDIF_SOFT_RESET_REG : Nat := 0x40
def XSPDIF_SOFT_RESET_VAL : Nat := 0xA
def XSPDIF_CONTROL_REG : Nat := 0x44
def XSPDIF_CONTROL_ENABLE_MASK : Nat := BIT 0
def XSPDIF_CONTROL_FIFO_FLUSH_MASK : Nat := BIT 1
def XSPDIF_CONTROL_CLK_CFG_MASK : Nat := GENMASK 5 2
def XSPDIF_CONTROL_CLK_CFG_SHIFT : Nat := 2
def XSPDIF_GLOBAL_IRQ_REG : Nat := 0x1C
def XSPDIF_GLOBAL_IRQ_ENABLE_MASK : Nat := BIT 31

def XSPDIF_MAX_CHANNELS : Nat := 2
def XSPDIF_AES_SAMPLE_WIDTH : Nat := 32
def XSPDIF_CH_STS_UPDATE_TIMEOUT : Nat := 40

def CLK_DIV_BY_4 : Nat := 0
def CLK_DIV_BY_8 : Nat := 1
def CLK_DIV_BY_16 : Nat := 2
def CLK_DIV_BY_24 : Nat := 3
def CLK_DIV_BY_32 : Nat := 4
def CLK_DIV_BY_48 : Nat := 5
def CLK_DIV_BY_64 : Nat := 6

/-- Errno `EINVAL` (`include/uapi/asm-generic/errno-base.h`). -/
def EINVAL : Int := 22

/-- Errno `ERESTARTSYS` (`include/linux/errno.h`). -/
def ERESTARTSYS : Int := 512

/-- Value `IRQ_NONE` of `irqreturn_t`. -/
def IRQ_NONE : Nat := 0

/-- Value `IRQ_HANDLED` of `irqreturn_t`. -/
def IRQ_HANDLED : Nat := 1

/-- Stream direction `SNDRV_PCM_STREAM_PLAYBACK` (`include/sound/pcm.h`). -/
def SNDRV_PCM_STREAM_PLAYBACK : Nat := 0

/-- Stream direction `SNDRV_PCM_STREAM_CAPTURE` (`include/sound/pcm.h`). -/
def SNDRV_PCM_STREAM_CAPTURE : Nat := 1

/-! Trigger command values of `include/sound/pcm.h`. -/

def SNDRV_PCM_TRIGGER_STOP : Int := 0
def SNDRV_PCM_TRIGGER_START : Int := 1
def SNDRV_PCM_TRIGGER_PAUSE_PUSH : Int := 3
def SNDRV_PCM_TRIGGER_PAUSE_RELEASE : Int := 4
def SNDRV_PCM_TRIGGER_SUSPEND : Int := 5
def SNDRV_PCM_TRIGGER_RESUME : Int := 6

/-- The sample rates of `XLNX_SPDIF_RATES` (lines 19-22), the only rates both
DAI descriptions of the driver declare (lines 218-238). -/
def XLNX_SPDIF_RATES : List Nat :=
  [32000, 44100, 48000, 88200, 96000, 176400, 192000]

/-! ## Device state -/

/-- The part of `struct spdif_dev_data` the callbacks use, with the register
window behind `base`: `regs off` is the word held at `base + off`, `writes` is
the sequence of `writel` calls (offset, value), oldest first. -/
structure Dev where
  regs : Nat → Nat
  writes : List (Nat × Nat)
  aclk : Nat
  rx_chsts_updated : Bool

/-- The call `readl(ctx->base + off)`. -/
def readl (d : Dev) (off : Nat) : Nat := u32 (d.regs off)

/-- The call `writel(val, ctx->base + off)`. -/
def writel (val off : Nat) (d : Dev) : Dev :=
  { d with
    regs := fun o => if o = off then u32 val else d.regs o
    writes := d.writes ++ [(off, u32 val)] }

/-! ## `xlnx_spdif_hw_params` (lines 116-160) -/

/-- The divisor `XSPDIF_MAX_CHANNELS * XSPDIF_AES_SAMPLE_WIDTH *
params_rate(params)` of lines 124-126, an `unsigned int` product. -/
def hw_params_divisor (rate : Nat) : Nat :=
  u32 (XSPDIF_MAX_CHANNELS * XSPDIF_AES_SAMPLE_WIDTH * rate)

/-- The value stored in the `u32` variable `clk_div` (lines 123-126) for the
audio clock rate `aclk` and the sample rate `rate`. -/
def hw_params_clk_div (aclk rate : Nat) : Option Nat :=
  (DIV_ROUND_CLOSEST (ulong aclk) (hw_params_divisor rate)).map u32

/-- The `switch (clk_div)` of lines 128-152: the divider code, or `none` for
the `default` branch. -/
def hw_params_clk_cfg (clk_div : Nat) : Option Nat :=
  if clk_div = 4 then some CLK_DIV_BY_4
  else if clk_div = 8 then some CLK_DIV_BY_8
  else if clk_div = 16 then some CLK_DIV_BY_16
  else if clk_div = 24 then some CLK_DIV_BY_24
  else if clk_div = 32 then some CLK_DIV_BY_32
  else if clk_div = 48 then some CLK_DIV_BY_48
  else if clk_div = 64 then some CLK_DIV_BY_64
  else none

/-- The read-modify-write of lines 154-157 for divider code `clk_cfg`. -/
def hw_params_program (clk_cfg : Nat) (d : Dev) : Dev :=
  let val := readl d XSPDIF_CONTROL_REG
  let val := u32 (val &&& bnot XSPDIF_CONTROL_CLK_CFG_MASK)
  let val := u32 (val ||| u32 (clk_cfg <<< XSPDIF_CONTROL_CLK_CFG_SHIFT))
  writel val XSPDIF_CONTROL_REG d

/-- The callback `xlnx_spdif_hw_params`; `aud_clk_rate` is what
`clk_get_rate(ctx->aud_clk)` returns and `rate` is `params_rate(params)`.
The result is `none` when the rounding division divides by zero. -/
def xlnx_spdif_hw_params (aud_clk_rate rate : Nat) (d : Dev) : Option (Int × Dev) :=
  let d := { d with aclk := ulong aud_clk_rate }
  match hw_params_clk_div d.aclk rate with
  | none => none
  | some clk_div =>
    match hw_params_clk_cfg clk_div with
    | none => some (-EINVAL, d)
    | some clk_cfg => some (0, hw_params_program clk_cfg d)

/-! ## `xlnx_spdif_startup` (lines 88-106) -/

/-- The callback `xlnx_spdif_startup` for a substream of direction `stream`. -/
def xlnx_spdif_startup (stream : Nat) (d : Dev) : Int × Dev :=
  let val := readl d XSPDIF_CONTROL_REG
  let val := u32 (val ||| XSPDIF_CONTROL_FIFO_FLUSH_MASK)
  let d := writel val XSPDIF_CONTROL_REG d
  if stream = SNDRV_PCM_STREAM_CAPTURE then
    let d := writel XSPDIF_IRQ_STS_CH_STS_MASK XSPDIF_IRQ_ENABLE_REG d
    let d := writel XSPDIF_GLOBAL_IRQ_ENABLE_MASK XSPDIF_GLOBAL_IRQ_REG d
    (0, d)
  else (0, d)

/-! ## `xlnx_spdifrx_irq_handler` (lines 66-86) -/

/-- The interrupt handler; the wake-up of `chsts_q` is accounted for in
`wait_sleep`, which re-tests the flag after every handler run. -/
def xlnx_spdifrx_irq_handler (d : Dev) : Nat × Dev :=
  let val := readl d XSPDIF_IRQ_STS_REG
  if val &&& XSPDIF_IRQ_STS_CH_STS_MASK ≠ 0 then
    let d := writel (val &&& XSPDIF_IRQ_STS_CH_STS_MASK) XSPDIF_IRQ_STS_REG d
    let val := readl d XSPDIF_IRQ_ENABLE_REG
    let d := writel (val &&& bnot XSPDIF_IRQ_STS_CH_STS_MASK) XSPDIF_IRQ_ENABLE_REG d
    (IRQ_HANDLED, { d with rx_chsts_updated := true })
  else (IRQ_NONE, d)

/-! ## The bounded wait and `rx_stream_detect` (lines 162-179) -/

/-- What can happen while the caller sleeps on `chsts_q`. -/
inductive WaitEvent where
  /-- one jiffy elapses -/
  | tick
  /-- the device raises its interrupt while its status register reads `sts` -/
  | irq (sts : Nat)
  /-- a signal becomes pending for the sleeping task -/
  | signal

/-- The device latches `sts` in its interrupt status register. -/
def hw_latch_status (sts : Nat) (d : Dev) : Dev :=
  { d with regs := fun o => if o = XSPDIF_IRQ_STS_REG then u32 sts else d.regs o }

/-- Modelled from the spec: `msecs_to_jiffies` (`include/linux/jiffies.h`) is not
among the embedded files; it converts a duration in milliseconds to ticks of
the `hz` Hz timer, rounding up. -/
def msecs_to_jiffies (hz m : Nat) : Nat := (m * hz + 999) / 1000

/-- The sleeping part of the bounded wait, entered with the condition false; the
first argument is the number of jiffies left.  A tick uses up one jiffy; a handler run that sets
`rx_chsts_updated` wakes the sleeper with the jiffies that remain; a signal
ends the sleep with `-ERESTARTSYS`; with no jiffy left, or nothing further
happening, the timeout elapses with the condition still false: result `0`. -/
def wait_sleep : Nat → List WaitEvent → Dev → Int × Dev
  | 0, _, d => (0, d)
  | _ + 1, [], d => (0, d)
  | n + 1, WaitEvent.tick :: es, d => wait_sleep n es d
  | n + 1, WaitEvent.irq sts :: es, d =>
    let d := (xlnx_spdifrx_irq_handler (hw_latch_status sts d)).2
    if d.rx_chsts_updated then (((n + 1 : Nat) : Int), d) else wait_sleep (n + 1) es d
  | _ + 1, WaitEvent.signal :: _, d => (-ERESTARTSYS, d)

/-- Modelled from the spec: the macro `wait_event_interruptible_timeout`
(`include/linux/wait.h`) is not among the embedded files.  The specification
describes a wait that blocks until the detection flag is set or the deadline
elapses and that the caller's framework may cancel.  Here the condition is
`ctx->rx_chsts_updated`: if it already holds on entry the macro returns at once
with the whole timeout (at least 1); otherwise the caller sleeps.  The result
is positive when the condition was seen true, `0` when the timeout elapsed with
the condition false and `-ERESTARTSYS` when a signal interrupted the sleep. -/
def wait_event_interruptible_timeout (timeout : Nat) (es : List WaitEvent) (d : Dev) :
    Int × Dev :=
  if d.rx_chsts_updated then (((if timeout = 0 then 1 else timeout : Nat) : Int), d)
  else wait_sleep timeout es d

/-- The function `rx_stream_detect`, with the timer frequency `hz` and the
events `es` taking place while it waits. -/
def rx_stream_detect (hz : Nat) (es : List WaitEvent) (d : Dev) : Int × Dev :=
  let jiffies := msecs_to_jiffies hz XSPDIF_CH_STS_UPDATE_TIMEOUT
  let r := wait_event_interruptible_timeout jiffies es d
  let err := r.1
  let d := r.2
  if err = 0 then (-EINVAL, d)
  else (0, { d with rx_chsts_updated := false })

/-! ## `xlnx_spdif_trigger` (lines 181-209) -/

/-- The callback `xlnx_spdif_trigger` for a substream of direction `stream` and
the command `cmd`; `hz` and `es` are handed on to `rx_stream_detect`. -/
def xlnx_spdif_trigger (stream : Nat) (cmd : Int) (hz : Nat) (es : List WaitEvent)
    (d : Dev) : Int × Dev :=
  let val := readl d XSPDIF_CONTROL_REG
  if cmd = SNDRV_PCM_TRIGGER_START ∨ cmd = SNDRV_PCM_TRIGGER_RESUME ∨
      cmd = SNDRV_PCM_TRIGGER_PAUSE_RELEASE then
    let val := u32 (val ||| XSPDIF_CONTROL_ENABLE_MASK)
    let d := writel val XSPDIF_CONTROL_REG d
    if stream = SNDRV_PCM_STREAM_CAPTURE then rx_stream_detect hz es d
    else (0, d)
  else if cmd = SNDRV_PCM_TRIGGER_STOP ∨ cmd = SNDRV_PCM_TRIGGER_SUSPEND ∨
      cmd = SNDRV_PCM_TRIGGER_PAUSE_PUSH then
    let val := u32 (val &&& bnot XSPDIF_CONTROL_ENABLE_MASK)
    (0, writel val XSPDIF_CONTROL_REG d)
  else (-EINVAL, d)

/-- A device whose registers all read zero, with no write performed yet. -/
def Dev.zero : Dev := { regs := fun _ => 0, writes := [], aclk := 0, rx_chsts_updated := false }

/-- What a call leaves behind apart from the interrupt registers: `d'` agrees
with `d` on every register other than interrupt status and interrupt enable,
and the writes of `d'` are those of `d` followed by writes to these two
registers only. -/
def IrqFrame (d d' : Dev) : Prop :=
  (∀ o, o ≠ XSPDIF_IRQ_STS_REG → o ≠ XSPDIF_IRQ_ENABLE_REG → d'.regs o = d.regs o) ∧
  ∃ tail, d'.writes = d.writes ++ tail ∧
    ∀ w ∈ tail, w.1 = XSPDIF_IRQ_STS_REG ∨ w.1 = XSPDIF_IRQ_ENABLE_REG

/-! ## `xlnx_spdif_probe` (lines 250-361) -/

/-- Errno `ENOMEM` (`include/uapi/asm-generic/errno-base.h`). -/
def ENOMEM : Int := 12

/-- Errno `ENODEV` (`include/uapi/asm-generic/errno-base.h`). -/
def ENODEV : Int := 19

/-- Largest errno an error pointer can carry (`include/linux/err.h`). -/
def MAX_ERRNO : Int := 4095

/-- Kernel helper `IS_ERR` (`include/linux/err.h`, outside the files embedded
here), on a pointer read as a signed `long`: the top `MAX_ERRNO` addresses are
error codes. -/
def IS_ERR (p : Int) : Bool := decide (-MAX_ERRNO ≤ p ∧ p < 0)

/-- Kernel helper `PTR_ERR` (`include/linux/err.h`): the pointer as a `long`. -/
def PTR_ERR (p : Int) : Int := p

/-- The three clocks held in `struct spdif_dev_data`. -/
inductive Clk where
  | axi_clk
  | axis_clk
  | aud_clk
  deriving DecidableEq, Repr

/-- A call of `clk_prepare_enable` that succeeded, or a call of
`clk_disable_unprepare`. -/
inductive ClkOp where
  | enable (c : Clk)
  | disable (c : Clk)
  deriving DecidableEq, Repr

/-- What the platform answers to the calls `xlnx_spdif_probe` makes, in the
order of the calls.  Pointers are given as signed `long` values, return codes
as `int` values. -/
structure ProbeEnv where
  /-- `devm_kzalloc` returned a non-NULL pointer -/
  kzalloc_ok : Bool
  /-- result of `devm_clk_get(dev, "s_axi_aclk")` -/
  get_s_axi_aclk : Int
  /-- result of `clk_prepare_enable(ctx->axi_clk)` -/
  enable_axi_clk : Int
  /-- result of `devm_platform_ioremap_resource(pdev, 0)` -/
  ioremap : Int
  /-- result of `of_property_read_u32(node, "xlnx,spdif-mode", &ctx->mode)` -/
  read_mode : Int
  /-- value of the property `xlnx,spdif-mode` -/
  mode : Nat
  /-- result of `devm_clk_get(dev, "s_axis_aclk")` -/
  get_s_axis_aclk : Int
  /-- result of `devm_clk_get(dev, "m_axis_aclk")` -/
  get_m_axis_aclk : Int
  /-- `platform_get_resource(pdev, IORESOURCE_IRQ, 0)` returned non-NULL -/
  irq_resource : Bool
  /-- result of `devm_request_irq` -/
  request_irq : Int
  /-- result of `devm_clk_get(dev, "aud_clk_i")` -/
  get_aud_clk_i : Int
  /-- result of `clk_prepare_enable(ctx->axis_clk)` -/
  enable_axis_clk : Int
  /-- result of `clk_prepare_enable(ctx->aud_clk)` -/
  enable_aud_clk : Int
  /-- result of `devm_snd_soc_register_component` -/
  register_component : Int

/-- What `xlnx_spdif_probe` has done: the clock operations in the order they
were made, whether the interrupt handler was installed, whether the driver
data was set and whether the soft reset was written. -/
structure ProbeState where
  clk_ops : List ClkOp
  irq_requested : Bool
  drvdata_set : Bool
  soft_reset : Bool

/-- The label `axi_clk_err` (lines 357-360). -/
def axi_clk_err (ret : Int) (st : ProbeState) : Int × ProbeState :=
  (ret, { st with clk_ops := st.clk_ops ++ [ClkOp.disable Clk.axi_clk] })

/-- The label `axis_clk_err` (lines 355-360). -/
def axis_clk_err (ret : Int) (st : ProbeState) : Int × ProbeState :=
  axi_clk_err ret { st with clk_ops := st.clk_ops ++ [ClkOp.disable Clk.axis_clk] }

/-- The label `clk_err` (lines 353-360). -/
def clk_err (ret : Int) (st : ProbeState) : Int × ProbeState :=
  axis_clk_err ret { st with clk_ops := st.clk_ops ++ [ClkOp.disable Clk.aud_clk] }

/-- The part of `xlnx_spdif_probe` from the lookup of `aud_clk_i` on (lines
321-351), common to both modes. -/
def probe_clocks (env : ProbeEnv) (st : ProbeState) : Int × ProbeState :=
  if IS_ERR env.get_aud_clk_i then axi_clk_err (PTR_ERR env.get_aud_clk_i) st
  else if env.enable_axis_clk ≠ 0 then axi_clk_err env.enable_axis_clk st
  else
    let st := { st with clk_ops := st.clk_ops ++ [ClkOp.enable Clk.axis_clk] }
    if env.enable_aud_clk ≠ 0 then axis_clk_err env.enable_aud_clk st
    else
      let st := { st with clk_ops := st.clk_ops ++ [ClkOp.enable Clk.aud_clk] }
      let st := { st with drvdata_set := true }
      if env.register_component ≠ 0 then clk_err env.register_component st
      else (0, { st with soft_reset := true })

/-- The function `xlnx_spdif_probe`. -/
def xlnx_spdif_probe (env : ProbeEnv) : Int × ProbeState :=
  let st : ProbeState :=
    { clk_ops := [], irq_requested := false, drvdata_set := false, soft_reset := false }
  if !env.kzalloc_ok then (-ENOMEM, st)
  else if IS_ERR env.get_s_axi_aclk then (PTR_ERR env.get_s_axi_aclk, st)
  else if env.enable_axi_clk ≠ 0 then (env.enable_axi_clk, st)
  else
    let st := { st with clk_ops := st.clk_ops ++ [ClkOp.enable Clk.axi_clk] }
    if IS_ERR env.ioremap then axi_clk_err (PTR_ERR env.ioremap) st
    else if env.read_mode < 0 then axi_clk_err env.read_mode st
    else if env.mode % 2 ^ 32 ≠ 0 then
      if IS_ERR env.get_s_axis_aclk then axi_clk_err (PTR_ERR env.get_s_axis_aclk) st
      else probe_clocks env st
    else
      if IS_ERR env.get_m_axis_aclk then axi_clk_err (PTR_ERR env.get_m_axis_aclk) st
      else if !env.irq_resource then axi_clk_err (-ENODEV) st
      else if env.request_irq ≠ 0 then axi_clk_err (-ENODEV) st
      else probe_clocks env { st with irq_requested := true }

/-- The clocks a sequence of clock operations enabled, in order. -/
def enabled_clocks (ops : List ClkOp) : List Clk :=
  ops.filterMap fun op =>
    match op with
    | ClkOp.enable c => some c
    | ClkOp.disable _ => none

/-- The enable count a sequence of clock operations leaves on the clock `c`:
enables minus disables. -/
def clk_enable_count (ops : List ClkOp) (c : Clk) : Int :=
  (ops.count (ClkOp.enable c) : Int) - (ops.count (ClkOp.disable c) : Int)

/-- An environment in which every call of `xlnx_spdif_probe` succeeds, for a
receiver (`xlnx,spdif-mode` is 0); pointers are given the value 1. -/
def ProbeEnv.ok : ProbeEnv :=
  { kzalloc_ok := true, get_s_axi_aclk := 1, enable_axi_clk := 0, ioremap := 1,
    read_mode := 0, mode := 0, get_s_axis_aclk := 1, get_m_axis_aclk := 1,
    irq_resource := true, request_irq := 0, get_aud_clk_i := 1, enable_axis_clk := 0,
    enable_aud_clk := 0, register_component := 0 }

/-! ## Word-level lemmas -/

theorem u32_lt (x : Nat) : u32 x < 2 ^ 32 := Nat.mod_lt _ (by decide)

theorem u32_of_lt {x : Nat} (h : x < 2 ^ 32) : u32 x = x := Nat.mod_eq_of_lt h

theorem ulong_of_lt {x : Nat} (h : x < 2 ^ 64) : ulong x = x := Nat.mod_eq_of_lt h

theorem testBit_u32 (x i : Nat) : (u32 x).testBit i = (decide (i < 32) && x.testBit i) := by
  show (x % 2 ^ 32).testBit i = _
  rw [Nat.testBit_mod_two_pow]

theorem testBit_bnot (x i : Nat) : (bnot x).testBit i = (decide (i < 64) ^^ x.testBit i) := by
  show ((2 ^ 64 - 1) ^^^ x).testBit i = _
  rw [Nat.testBit_xor, Nat.testBit_two_pow_sub_one]

theorem clk_cfg_mask_eq : XSPDIF_CONTROL_CLK_CFG_MASK = (2 ^ 4 - 1) <<< 2 := by decide

theorem testBit_clk_cfg_mask (i : Nat) :
    XSPDIF_CONTROL_CLK_CFG_MASK.testBit i = (decide (2 ≤ i) && decide (i < 6)) := by
  rw [clk_cfg_mask_eq, Nat.testBit_shiftLeft, Nat.testBit_two_pow_sub_one]
  by_cases h : 2 ≤ i <;> by_cases h6 : i < 6 <;> simp [h, h6] <;> omega

theorem testBit_BIT (n i : Nat) (hn : n < 64) : (BIT n).testBit i = decide (n = i) := by
  unfold BIT
  rw [Nat.one_shiftLeft, ulong_of_lt (Nat.pow_lt_pow_right (by decide) hn), Nat.testBit_two_pow]

/-- The word `hw_params_program` stores for the prior control value `v` and
the divider code `c`. -/
theorem hw_params_program_eq (c : Nat) (d : Dev) :
    hw_params_program c d =
      writel (u32 (u32 (readl d XSPDIF_CONTROL_REG &&& bnot XSPDIF_CONTROL_CLK_CFG_MASK) |||
        u32 (c <<< XSPDIF_CONTROL_CLK_CFG_SHIFT))) XSPDIF_CONTROL_REG d := rfl

theorem testBit_program_val (v c i : Nat) :
    (u32 (u32 (v &&& bnot XSPDIF_CONTROL_CLK_CFG_MASK) |||
        u32 (c <<< XSPDIF_CONTROL_CLK_CFG_SHIFT))).testBit i =
      (decide (i < 32) &&
        ((v.testBit i && !(decide (2 ≤ i) && decide (i < 6))) ||
          (decide (2 ≤ i) && c.testBit (i - 2)))) := by
  simp only [testBit_u32, Nat.testBit_or, Nat.testBit_and, testBit_bnot, testBit_clk_cfg_mask,
    Nat.testBit_shiftLeft, XSPDIF_CONTROL_CLK_CFG_SHIFT]
  by_cases h32 : i < 32
  · have h64 : i < 64 := by omega
    by_cases h2 : 2 ≤ i <;> by_cases h6 : i < 6 <;> simp [h32, h64, h2, h6]
  · simp [h32]

theorem testBit_of_lt_of_le {x n i : Nat} (hx : x < 2 ^ n) (h : n ≤ i) :
    x.testBit i = false :=
  Nat.testBit_lt_two_pow (lt_of_lt_of_le hx (Nat.pow_le_pow_right (by decide) h))

theorem program_val_eq (v c : Nat) (hv : v < 2 ^ 32) (hc : c < 16) :
    u32 (u32 (v &&& bnot XSPDIF_CONTROL_CLK_CFG_MASK) |||
        u32 (c <<< XSPDIF_CONTROL_CLK_CFG_SHIFT)) = (v &&& (0xFFFFFFFF ^^^ 0x3C)) ||| (c <<< 2) := by
  have hc4 : c < 2 ^ 4 := hc
  apply Nat.eq_of_testBit_eq
  intro i
  rw [testBit_program_val]
  have hm : (0xFFFFFFFF ^^^ 0x3C : Nat) = (2 ^ 32 - 1) ^^^ ((2 ^ 4 - 1) <<< 2) := by decide
  rw [hm]
  simp only [Nat.testBit_or, Nat.testBit_and, Nat.testBit_xor, Nat.testBit_two_pow_sub_one,
    Nat.testBit_shiftLeft]
  by_cases h32 : i < 32
  · by_cases h2 : 2 ≤ i
    · by_cases h6 : i < 6
      · have h4 : i - 2 < 4 := by omega
        simp [h32, h2, h6, h4]
      · have h4 : ¬ i - 2 < 4 := by omega
        simp [h32, h2, h6, h4]
    · have h6 : i < 6 := by omega
      simp [h32, h2, h6]
  · have hvi : v.testBit i = false := testBit_of_lt_of_le hv (by omega)
    have hci : c.testBit (i - 2) = false := testBit_of_lt_of_le hc4 (by omega)
    simp [h32, hvi, hci]

theorem program_val_field (v c : Nat) (hc : c < 16) :
    (u32 (u32 (v &&& bnot XSPDIF_CONTROL_CLK_CFG_MASK) |||
        u32 (c <<< XSPDIF_CONTROL_CLK_CFG_SHIFT)) >>> 2) &&& 0xF = c := by
  have hc4 : c < 2 ^ 4 := hc
  apply Nat.eq_of_testBit_eq
  intro i
  have hm : (0xF : Nat) = 2 ^ 4 - 1 := by decide
  rw [hm, Nat.testBit_and, Nat.testBit_shiftRight, testBit_program_val,
    Nat.testBit_two_pow_sub_one]
  by_cases h4 : i < 4
  · have h1 : 2 + i < 32 := by omega
    have h2 : 2 ≤ 2 + i := by omega
    have h3 : 2 + i < 6 := by omega
    simp [h1, h2, h3, h4]
  · have hci : c.testBit i = false := testBit_of_lt_of_le hc4 (by omega)
    simp [h4, hci]

theorem hw_params_program_inj {c c' : Nat} {d : Dev} (hc : c < 16) (hc' : c' < 16)
    (h : hw_params_program c d = hw_params_program c' d) : c = c' := by
  have hw := congrArg Dev.writes h
  simp only [hw_params_program_eq, writel, List.append_cancel_left_eq, List.cons.injEq,
    Prod.mk.injEq, and_true, true_and] at hw
  rw [u32_of_lt (u32_lt _), u32_of_lt (u32_lt _)] at hw
  have h1 := program_val_field (readl d XSPDIF_CONTROL_REG) c hc
  have h2 := program_val_field (readl d XSPDIF_CONTROL_REG) c' hc'
  rw [hw] at h1
  exact h1.symm.trans h2

/-! ## The rounding division without wrap-around -/

theorem hw_params_divisor_of_lt {r : Nat} (hd : 64 * r < 2 ^ 32) :
    hw_params_divisor r = 64 * r := by
  show u32 (2 * 32 * r) = 64 * r
  rw [u32_of_lt (by omega)]

theorem dividend_lt_of_quotient_lt {aclk r : Nat} (hr : 0 < r) (hd : 64 * r < 2 ^ 32)
    (hq : (aclk + 32 * r) / (64 * r) < 2 ^ 32) : aclk + 32 * r < 2 ^ 64 := by
  have h1 : aclk + 32 * r < 2 ^ 32 * (64 * r) := by
    rw [Nat.div_lt_iff_lt_mul (by omega)] at hq
    exact hq
  have h2 : 2 ^ 32 * (64 * r) ≤ 2 ^ 32 * 2 ^ 32 := Nat.mul_le_mul_left _ (le_of_lt hd)
  have h3 : (2 : Nat) ^ 32 * 2 ^ 32 = 2 ^ 64 := by norm_num
  omega

/-- Inside the range where nothing wraps, `clk_div` is the rounded quotient. -/
theorem hw_params_clk_div_of_lt {aclk r : Nat} (hr : 0 < r) (hd : 64 * r < 2 ^ 32)
    (hq : (aclk + 32 * r) / (64 * r) < 2 ^ 32) :
    hw_params_clk_div aclk r = some ((aclk + 32 * r) / (64 * r)) := by
  have hlt := dividend_lt_of_quotient_lt hr hd hq
  have ha : ulong aclk = aclk := ulong_of_lt (by omega)
  have hne : 64 * r ≠ 0 := by omega
  have hhalf : 64 * r / 2 = 32 * r := by omega
  simp only [hw_params_clk_div, DIV_ROUND_CLOSEST, hw_params_divisor_of_lt hd, hne, if_false,
    Option.map_some', ha, hhalf, ulong_of_lt hlt, u32_of_lt hq]

theorem ulong_lt (x : Nat) : ulong x < 2 ^ 64 := Nat.mod_lt _ (by decide)

theorem hw_params_clk_div_ulong (aclk r : Nat) :
    hw_params_clk_div (ulong aclk) r = hw_params_clk_div aclk r := by
  unfold hw_params_clk_div
  rw [ulong_of_lt (ulong_lt aclk)]

/-- Outcome of `xlnx_spdif_hw_params` once `clk_div` is known. -/
theorem hw_params_of_clk_div {aclk r q : Nat} (d : Dev)
    (h : hw_params_clk_div aclk r = some q) :
    xlnx_spdif_hw_params aclk r d =
      match hw_params_clk_cfg q with
      | none => some (-EINVAL, { d with aclk := ulong aclk })
      | some c => some (0, hw_params_program c { d with aclk := ulong aclk }) := by
  simp only [xlnx_spdif_hw_params, hw_params_clk_div_ulong, h]

theorem hw_params_clk_cfg_cases (q : Nat) :
    (q = 4 ∧ hw_params_clk_cfg q = some 0) ∨ (q = 8 ∧ hw_params_clk_cfg q = some 1) ∨
    (q = 16 ∧ hw_params_clk_cfg q = some 2) ∨ (q = 24 ∧ hw_params_clk_cfg q = some 3) ∨
    (q = 32 ∧ hw_params_clk_cfg q = some 4) ∨ (q = 48 ∧ hw_params_clk_cfg q = some 5) ∨
    (q = 64 ∧ hw_params_clk_cfg q = some 6) ∨
    (q ∉ [4, 8, 16, 24, 32, 48, 64] ∧ hw_params_clk_cfg q = none) := by
  unfold hw_params_clk_cfg
  split_ifs <;> simp_all [CLK_DIV_BY_4, CLK_DIV_BY_8, CLK_DIV_BY_16, CLK_DIV_BY_24,
    CLK_DIV_BY_32, CLK_DIV_BY_48, CLK_DIV_BY_64]

theorem hw_params_clk_cfg_le {q c : Nat} (h : hw_params_clk_cfg q = some c) : c ≤ 6 := by
  rcases hw_params_clk_cfg_cases q with h' | h' | h' | h' | h' | h' | h' | h' <;>
    obtain ⟨_, h2⟩ := h' <;> rw [h2] at h <;> simp at h <;> omega

theorem hw_params_program_ne {c c' : Nat} (d : Dev) (hc : c < 16) (hc' : c' < 16)
    (hne : c ≠ c') : hw_params_program c d ≠ hw_params_program c' d :=
  fun h => hne (hw_params_program_inj hc hc' h)

/-- The outcomes of `xlnx_spdif_hw_params` in terms of `clk_div = q`: code `c`
is programmed exactly when `q` is the case label of `c`, and `-EINVAL` is
returned exactly when `q` is no case label. -/
theorem hw_params_outcome_iff {aclk r q : Nat} (d : Dev)
    (h : hw_params_clk_div aclk r = some q) :
    (∀ p ∈ [(4, 0), (8, 1), (16, 2), (24, 3), (32, 4), (48, 5), (64, 6)],
      (xlnx_spdif_hw_params aclk r d =
        some (0, hw_params_program p.2 { d with aclk := ulong aclk }) ↔ q = p.1)) ∧
    (xlnx_spdif_hw_params aclk r d = some (-EINVAL, { d with aclk := ulong aclk }) ↔
      q ∉ [4, 8, 16, 24, 32, 48, 64]) := by
  rw [hw_params_of_clk_div d h]
  have hE : (-EINVAL : Int) ≠ 0 := by decide
  have hE' : (0 : Int) ≠ -EINVAL := by decide
  have hn : ∀ c c', c < 16 → c' < 16 → c ≠ c' →
      ¬ hw_params_program c { d with aclk := ulong aclk } =
        hw_params_program c' { d with aclk := ulong aclk } :=
    fun c c' hc hc' hne => hw_params_program_ne _ hc hc' hne
  rcases hw_params_clk_cfg_cases q with h | h | h | h | h | h | h | h <;>
    obtain ⟨h1, h2⟩ := h <;>
    simp [h2, hE, hE', hn] <;> simp_all

/-! ## Clock-divider selection: C1 - C4 -/

/-- C1: for `r > 0`, `64 * r < 2 ^ 32` and a rounded quotient
`q = (aclk + 32 * r) / (64 * r)` below `2 ^ 32`, `xlnx_spdif_hw_params` computes
`clk_div = q`; it returns 0 having programmed divider code 0, 1, 2, 3, 4, 5, 6
exactly when `q` is 4, 8, 16, 24, 32, 48, 64 respectively, and it returns
`-EINVAL` without programming anything exactly when `q` is none of these. -/
theorem C1_hw_params_rounded_ratio (aclk r : Nat) (d : Dev) (hr : 0 < r)
    (hd : 64 * r < 2 ^ 32) (hq : (aclk + 32 * r) / (64 * r) < 2 ^ 32) :
    hw_params_clk_div aclk r = some ((aclk + 32 * r) / (64 * r)) ∧
    (xlnx_spdif_hw_params aclk r d = some (0, hw_params_program 0 { d with aclk := aclk }) ↔
      (aclk + 32 * r) / (64 * r) = 4) ∧
    (xlnx_spdif_hw_params aclk r d = some (0, hw_params_program 1 { d with aclk := aclk }) ↔
      (aclk + 32 * r) / (64 * r) = 8) ∧
    (xlnx_spdif_hw_params aclk r d = some (0, hw_params_program 2 { d with aclk := aclk }) ↔
      (aclk + 32 * r) / (64 * r) = 16) ∧
    (xlnx_spdif_hw_params aclk r d = some (0, hw_params_program 3 { d with aclk := aclk }) ↔
      (aclk + 32 * r) / (64 * r) = 24) ∧
    (xlnx_spdif_hw_params aclk r d = some (0, hw_params_program 4 { d with aclk := aclk }) ↔
      (aclk + 32 * r) / (64 * r) = 32) ∧
    (xlnx_spdif_hw_params aclk r d = some (0, hw_params_program 5 { d with aclk := aclk }) ↔
      (aclk + 32 * r) / (64 * r) = 48) ∧
    (xlnx_spdif_hw_params aclk r d = some (0, hw_params_program 6 { d with aclk := aclk }) ↔
      (aclk + 32 * r) / (64 * r) = 64) ∧
    (xlnx_spdif_hw_params aclk r d = some (-EINVAL, { d with aclk := aclk }) ↔
      (aclk + 32 * r) / (64 * r) ∉ [4, 8, 16, 24, 32, 48, 64]) := by
  have hlt := dividend_lt_of_quotient_lt hr hd hq
  have hdiv := hw_params_clk_div_of_lt hr hd hq
  have ha : ulong aclk = aclk := ulong_of_lt (by omega)
  have h := hw_params_outcome_iff d hdiv
  rw [ha] at h
  exact ⟨hdiv, h.1 (4, 0) (by simp), h.1 (8, 1) (by simp), h.1 (16, 2) (by simp),
    h.1 (24, 3) (by simp), h.1 (32, 4) (by simp), h.1 (48, 5) (by simp),
    h.1 (64, 6) (by simp), h.2⟩

/-- Witness of C1: a 12.288 MHz audio clock at 48 kHz has ratio 4 and selects
divider code 0. -/
theorem C1_hw_params_rounded_ratio_witness :
    hw_params_clk_div 12288000 48000 = some ((12288000 + 32 * 48000) / (64 * 48000)) ∧
    xlnx_spdif_hw_params 12288000 48000 Dev.zero =
      some (0, hw_params_program 0 { Dev.zero with aclk := 12288000 }) :=
  ⟨(C1_hw_params_rounded_ratio 12288000 48000 Dev.zero (by decide) (by decide) (by decide)).1,
   (C1_hw_params_rounded_ratio 12288000 48000 Dev.zero (by decide) (by decide)
      (by decide)).2.1.mpr (by decide)⟩

/-- Counterexample to C2: for a 48 MHz reference and 48 kHz the ratio is not
7.8125, `clk_div` is not 8 and `CLK_DIV_BY_8` is not what gets programmed. -/
theorem C2_counterexample :
    (48000000 : ℚ) / (2 * 32 * 48000) ≠ 7.8125 ∧
    hw_params_clk_div 48000000 48000 ≠ some 8 ∧
    xlnx_spdif_hw_params 48000000 48000 Dev.zero ≠
      some (0, hw_params_program CLK_DIV_BY_8 { Dev.zero with aclk := 48000000 }) := by
  refine ⟨by norm_num, by decide, ?_⟩
  have h : hw_params_clk_div 48000000 48000 = some 16 := by decide
  have hu : ulong 48000000 = 48000000 := by decide
  rw [hw_params_of_clk_div Dev.zero h, hu]
  have hc : hw_params_clk_cfg 16 = some 2 := by decide
  simp only [hc, ne_eq, Option.some.injEq, Prod.mk.injEq, true_and]
  exact hw_params_program_ne _ (by decide) (by decide) (by decide)

/-- C2 (amended): for a 48 MHz reference, 48 kHz, 2 channels and 32-bit samples
the ratio is 15.625, `clk_div` is its rounding 16 and `xlnx_spdif_hw_params`
programs `CLK_DIV_BY_16` (code 2) and returns 0. -/
theorem C2_hw_params_48MHz_48kHz (d : Dev) :
    (48000000 : ℚ) / (XSPDIF_MAX_CHANNELS * XSPDIF_AES_SAMPLE_WIDTH * 48000) = 15.625 ∧
    hw_params_clk_div 48000000 48000 = some 16 ∧
    CLK_DIV_BY_16 = 2 ∧
    xlnx_spdif_hw_params 48000000 48000 d =
      some (0, hw_params_program CLK_DIV_BY_16 { d with aclk := 48000000 }) := by
  have h : hw_params_clk_div 48000000 48000 = some 16 := by decide
  have hu : ulong 48000000 = 48000000 := by decide
  refine ⟨?_, h, rfl, ?_⟩
  · simp only [XSPDIF_MAX_CHANNELS, XSPDIF_AES_SAMPLE_WIDTH]
    norm_num
  · rw [hw_params_of_clk_div d h, hu]
    rfl

theorem rounded_quotient_eq_iff {aclk r : Nat} (hr : 0 < r) (k : Nat) :
    (aclk + 32 * r) / (64 * r) = k ↔
      k * (64 * r) ≤ aclk + 32 * r ∧ aclk + 32 * r < (k + 1) * (64 * r) := by
  have hpos : 0 < 64 * r := by omega
  constructor
  · intro h
    subst h
    exact ⟨(Nat.le_div_iff_mul_le hpos).1 (le_refl _),
      (Nat.div_lt_iff_lt_mul hpos).1 (Nat.lt_succ_self _)⟩
  · rintro ⟨h1, h2⟩
    exact Nat.div_eq_of_lt_le h1 h2

/-- Counterexample to C3: a 25 MHz reference at 48 kHz has the inexact ratio
8.138..., equal to none of the seven table values, and `xlnx_spdif_hw_params`
nevertheless returns 0 with `CLK_DIV_BY_8` programmed. -/
theorem C3_counterexample :
    xlnx_spdif_hw_params 25000000 48000 Dev.zero =
      some (0, hw_params_program CLK_DIV_BY_8 { Dev.zero with aclk := 25000000 }) ∧
    ∀ k ∈ [4, 8, 16, 24, 32, 48, 64], 25000000 ≠ k * (2 * 32 * 48000) := by
  constructor
  · have h : hw_params_clk_div 25000000 48000 = some 8 := by decide
    have hu : ulong 25000000 = 25000000 := by decide
    rw [hw_params_of_clk_div Dev.zero h, hu]
    rfl
  · decide

/-- C3 (amended): for `r > 0`, `64 * r < 2 ^ 32` and a rounded quotient below
`2 ^ 32`, `xlnx_spdif_hw_params` returns 0 with the code of table value `k`
programmed exactly when the true ratio `aclk / (64 * r)` rounds to `k`, that is
`k - 1/2 ≤ aclk / (64 * r) < k + 1/2`; in particular it does so whenever the
ratio is exactly `k`.  It returns `-EINVAL` exactly when the ratio rounds to
none of the seven table values. -/
theorem C3_hw_params_nearest_ratio (aclk r : Nat) (d : Dev) (hr : 0 < r)
    (hd : 64 * r < 2 ^ 32) (hq : (aclk + 32 * r) / (64 * r) < 2 ^ 32) :
    (∀ p ∈ [(4, 0), (8, 1), (16, 2), (24, 3), (32, 4), (48, 5), (64, 6)],
      (xlnx_spdif_hw_params aclk r d =
          some (0, hw_params_program p.2 { d with aclk := aclk }) ↔
        p.1 * (64 * r) ≤ aclk + 32 * r ∧ aclk + 32 * r < (p.1 + 1) * (64 * r)) ∧
      (aclk = p.1 * (64 * r) →
        xlnx_spdif_hw_params aclk r d =
          some (0, hw_params_program p.2 { d with aclk := aclk }))) ∧
    (xlnx_spdif_hw_params aclk r d = some (-EINVAL, { d with aclk := aclk }) ↔
      ∀ k ∈ [4, 8, 16, 24, 32, 48, 64],
        ¬ (k * (64 * r) ≤ aclk + 32 * r ∧ aclk + 32 * r < (k + 1) * (64 * r))) := by
  have hlt := dividend_lt_of_quotient_lt hr hd hq
  have hdiv := hw_params_clk_div_of_lt hr hd hq
  have ha : ulong aclk = aclk := ulong_of_lt (by omega)
  have h := hw_params_outcome_iff d hdiv
  rw [ha] at h
  refine ⟨fun p hp => ?_, ?_⟩
  · have hp' := h.1 p hp
    rw [rounded_quotient_eq_iff hr] at hp'
    refine ⟨hp', fun hex => hp'.mpr ?_⟩
    rw [Nat.add_mul, Nat.one_mul, hex]
    omega
  · constructor
    · intro hR k hk hw
      have hk' := (rounded_quotient_eq_iff hr k).mpr hw
      exact h.2.mp hR (hk' ▸ hk)
    · intro hall
      exact h.2.mpr fun hmem => hall _ hmem ((rounded_quotient_eq_iff hr _).mp rfl)

/-- Witness of C3: a 24.576 MHz audio clock at 48 kHz has the exact ratio 8 and
selects divider code 1. -/
theorem C3_hw_params_nearest_ratio_witness :
    xlnx_spdif_hw_params 24576000 48000 Dev.zero =
      some (0, hw_params_program 1 { Dev.zero with aclk := 24576000 }) :=
  ((C3_hw_params_nearest_ratio 24576000 48000 Dev.zero (by decide) (by decide)
    (by decide)).1 (8, 1) (by simp)).2 (by decide)

/-- Counterexample to C4: for the sample rates 0 and `2 ^ 26` the divisor of the
rounding division is zero and the division has no defined result. -/
theorem C4_counterexample :
    hw_params_divisor 0 = 0 ∧ xlnx_spdif_hw_params 12288000 0 Dev.zero = none ∧
    hw_params_divisor (2 ^ 26) = 0 ∧ xlnx_spdif_hw_params 12288000 (2 ^ 26) Dev.zero = none := by
  refine ⟨by decide, ?_, by decide, ?_⟩
  · have h : hw_params_clk_div (ulong 12288000) 0 = none := by decide
    simp only [xlnx_spdif_hw_params, h]
  · have h : hw_params_clk_div (ulong 12288000) (2 ^ 26) = none := by decide
    simp only [xlnx_spdif_hw_params, h]

theorem hw_params_divisor_ne_zero {r : Nat} (h : r % 2 ^ 26 ≠ 0) : hw_params_divisor r ≠ 0 := by
  show (2 * 32 * r) % 2 ^ 32 ≠ 0
  omega

/-- C4 (amended): for every audio clock rate and every sample rate `r` that is
not a multiple of `2 ^ 26` (so that `2 * 32 * r` is not 0 modulo `2 ^ 32`), as
is the case for each rate of `XLNX_SPDIF_RATES`, the divisor of the rounding
division is non-zero and `xlnx_spdif_hw_params` returns, either with 0 or with
`-EINVAL`. -/
theorem C4_hw_params_total (aclk r : Nat) (d : Dev) (h : r % 2 ^ 26 ≠ 0) :
    hw_params_divisor r ≠ 0 ∧
    ((∃ c, c ≤ 6 ∧ xlnx_spdif_hw_params aclk r d =
        some (0, hw_params_program c { d with aclk := ulong aclk })) ∨
      xlnx_spdif_hw_params aclk r d = some (-EINVAL, { d with aclk := ulong aclk })) ∧
    ∀ x ∈ XLNX_SPDIF_RATES, x % 2 ^ 26 ≠ 0 := by
  have hne := hw_params_divisor_ne_zero h
  refine ⟨hne, ?_, by decide⟩
  have hdiv : ∃ q, hw_params_clk_div aclk r = some q := by
    simp [hw_params_clk_div, DIV_ROUND_CLOSEST, hne]
  obtain ⟨q, hq⟩ := hdiv
  rw [hw_params_of_clk_div d hq]
  cases hc : hw_params_clk_cfg q with
  | none => exact Or.inr rfl
  | some c => exact Or.inl ⟨c, hw_params_clk_cfg_le hc, rfl⟩

/-- Witness of C4: 44.1 kHz is not a multiple of `2 ^ 26`. -/
theorem C4_hw_params_total_witness :
    hw_params_divisor 44100 ≠ 0 ∧
    ((∃ c, c ≤ 6 ∧ xlnx_spdif_hw_params 22579200 44100 Dev.zero =
        some (0, hw_params_program c { Dev.zero with aclk := ulong 22579200 })) ∨
      xlnx_spdif_hw_params 22579200 44100 Dev.zero =
        some (-EINVAL, { Dev.zero with aclk := ulong 22579200 })) :=
  ⟨(C4_hw_params_total 22579200 44100 Dev.zero (by decide)).1,
   (C4_hw_params_total 22579200 44100 Dev.zero (by decide)).2.1⟩

/-! ## Control-register programming: C5, C6 -/

/-- C5: when `(aclk, r)` resolves to the divider code `c` and the control
register reads `v`, `xlnx_spdif_hw_params` performs the single write of
`n = (v AND NOT 0x3C) OR (c << 2)` to the control register and returns 0; `c`
is at most 6, bits 5:2 of `n` equal `c`, and every other bit of `n`, among them
enable (bit 0) and FIFO flush (bit 1), equals that bit of `v`. -/
theorem C5_hw_params_read_modify_write (aclk r q c v n : Nat) (d : Dev)
    (hq : hw_params_clk_div aclk r = some q) (hc : hw_params_clk_cfg q = some c)
    (hv : v = readl d XSPDIF_CONTROL_REG)
    (hn : n = (v &&& (0xFFFFFFFF ^^^ 0x3C)) ||| (c <<< 2)) :
    xlnx_spdif_hw_params aclk r d =
      some (0, writel n XSPDIF_CONTROL_REG { d with aclk := ulong aclk }) ∧
    (writel n XSPDIF_CONTROL_REG { d with aclk := ulong aclk }).writes =
      d.writes ++ [(XSPDIF_CONTROL_REG, n)] ∧
    (writel n XSPDIF_CONTROL_REG { d with aclk := ulong aclk }).regs XSPDIF_CONTROL_REG = n ∧
    c ≤ 6 ∧ (n >>> 2) &&& 0xF = c ∧
    (∀ i, i < 2 ∨ 5 < i → n.testBit i = v.testBit i) ∧
    n.testBit 0 = v.testBit 0 ∧ n.testBit 1 = v.testBit 1 := by
  have hc6 : c ≤ 6 := hw_params_clk_cfg_le hc
  have hc16 : c < 16 := by omega
  have hc4 : c < 2 ^ 4 := hc16
  have hv32 : v < 2 ^ 32 := hv ▸ u32_lt _
  have hpv := program_val_eq v c hv32 hc16
  rw [← hn] at hpv
  have hn32 : u32 n = n := u32_of_lt (hpv ▸ u32_lt _)
  have hbits : ∀ i, i < 2 ∨ 5 < i → n.testBit i = v.testBit i := by
    intro i hi
    rw [← hpv, testBit_program_val]
    by_cases h32 : i < 32
    · rcases hi with hi | hi
      · have h2 : ¬ 2 ≤ i := by omega
        simp [h32, h2]
      · have h6 : ¬ i < 6 := by omega
        have hci : c.testBit (i - 2) = false := testBit_of_lt_of_le hc4 (by omega)
        simp [h32, h6, hci]
    · have hvi : v.testBit i = false := testBit_of_lt_of_le hv32 (by omega)
      simp [h32, hvi]
  refine ⟨?_, ?_, ?_, hc6, ?_, hbits, hbits 0 (by omega), hbits 1 (by omega)⟩
  · rw [hw_params_of_clk_div d hq, hc, ← hpv, hv]
    rfl
  · simp only [writel, hn32]
  · simp only [writel, hn32, if_true]
  · rw [← hpv]
    exact program_val_field v c hc16

/-- Witness of C5: with the enable and flush bits and an old divider code set
(`v = 0x3F`), a 12.288 MHz clock at 48 kHz writes `0x03`. -/
theorem C5_hw_params_read_modify_write_witness :
    xlnx_spdif_hw_params 12288000 48000 (writel 0x3F XSPDIF_CONTROL_REG Dev.zero) =
      some (0, writel 0x03 XSPDIF_CONTROL_REG
        { writel 0x3F XSPDIF_CONTROL_REG Dev.zero with aclk := ulong 12288000 }) :=
  (C5_hw_params_read_modify_write 12288000 48000 4 0 0x3F 0x03
    (writel 0x3F XSPDIF_CONTROL_REG Dev.zero) (by decide) (by decide) (by decide)
    (by decide)).1

/-- C6: when the rounded ratio `clk_div` is none of 4, 8, 16, 24, 32, 48, 64,
`xlnx_spdif_hw_params` returns `-EINVAL` and writes no register: the register
contents and the sequence of writes are those before the call. -/
theorem C6_hw_params_unsupported (aclk r q : Nat) (d : Dev)
    (hq : hw_params_clk_div aclk r = some q) (hn : q ∉ [4, 8, 16, 24, 32, 48, 64]) :
    ∃ d', xlnx_spdif_hw_params aclk r d = some (-EINVAL, d') ∧
      d'.regs = d.regs ∧ d'.writes = d.writes ∧
      d'.rx_chsts_updated = d.rx_chsts_updated := by
  refine ⟨{ d with aclk := ulong aclk }, ?_, rfl, rfl, rfl⟩
  exact (hw_params_outcome_iff d hq).2.mpr hn

/-- Witness of C6: a 100 MHz clock at 48 kHz has the rounded ratio 33. -/
theorem C6_hw_params_unsupported_witness :
    ∃ d', xlnx_spdif_hw_params 100000000 48000 Dev.zero = some (-EINVAL, d') ∧
      d'.regs = Dev.zero.regs ∧ d'.writes = Dev.zero.writes ∧
      d'.rx_chsts_updated = Dev.zero.rx_chsts_updated :=
  C6_hw_params_unsupported 100000000 48000 33 Dev.zero (by decide) (by decide)

/-! ## Interrupt handler and bounded wait: what they leave untouched -/

theorem IrqFrame.refl (d : Dev) : IrqFrame d d :=
  ⟨fun _ _ _ => rfl, [], by simp, by simp⟩

theorem IrqFrame.trans {a b c : Dev} (h1 : IrqFrame a b) (h2 : IrqFrame b c) : IrqFrame a c := by
  obtain ⟨r1, t1, w1, m1⟩ := h1
  obtain ⟨r2, t2, w2, m2⟩ := h2
  refine ⟨fun o ho ho' => (r2 o ho ho').trans (r1 o ho ho'), t1 ++ t2, ?_, ?_⟩
  · rw [w2, w1, List.append_assoc]
  · intro w hw
    rcases List.mem_append.mp hw with h | h
    · exact m1 w h
    · exact m2 w h

theorem IrqFrame.flag (d : Dev) (b : Bool) : IrqFrame d { d with rx_chsts_updated := b } :=
  ⟨fun _ _ _ => rfl, [], by simp, by simp⟩

theorem irqFrame_latch (sts : Nat) (d : Dev) : IrqFrame d (hw_latch_status sts d) := by
  refine ⟨fun o ho _ => ?_, [], by simp [hw_latch_status], by simp⟩
  simp [hw_latch_status, ho]

theorem irqFrame_writel_sts (val : Nat) (d : Dev) :
    IrqFrame d (writel val XSPDIF_IRQ_STS_REG d) := by
  refine ⟨fun o ho _ => ?_, [(XSPDIF_IRQ_STS_REG, u32 val)], rfl, by simp⟩
  simp [writel, ho]

theorem irqFrame_writel_enable (val : Nat) (d : Dev) :
    IrqFrame d (writel val XSPDIF_IRQ_ENABLE_REG d) := by
  refine ⟨fun o _ ho => ?_, [(XSPDIF_IRQ_ENABLE_REG, u32 val)], rfl, by simp⟩
  simp [writel, ho]

theorem irq_handler_of_set (d : Dev)
    (h : readl d XSPDIF_IRQ_STS_REG &&& XSPDIF_IRQ_STS_CH_STS_MASK ≠ 0) :
    xlnx_spdifrx_irq_handler d =
      (IRQ_HANDLED,
        { writel (readl (writel (readl d XSPDIF_IRQ_STS_REG &&& XSPDIF_IRQ_STS_CH_STS_MASK)
              XSPDIF_IRQ_STS_REG d) XSPDIF_IRQ_ENABLE_REG &&& bnot XSPDIF_IRQ_STS_CH_STS_MASK)
            XSPDIF_IRQ_ENABLE_REG
            (writel (readl d XSPDIF_IRQ_STS_REG &&& XSPDIF_IRQ_STS_CH_STS_MASK)
              XSPDIF_IRQ_STS_REG d) with rx_chsts_updated := true }) :=
  if_pos h

theorem irq_handler_of_clear (d : Dev)
    (h : ¬ readl d XSPDIF_IRQ_STS_REG &&& XSPDIF_IRQ_STS_CH_STS_MASK ≠ 0) :
    xlnx_spdifrx_irq_handler d = (IRQ_NONE, d) :=
  if_neg h

theorem irqFrame_handler (d : Dev) : IrqFrame d (xlnx_spdifrx_irq_handler d).2 := by
  by_cases h : readl d XSPDIF_IRQ_STS_REG &&& XSPDIF_IRQ_STS_CH_STS_MASK ≠ 0
  · rw [irq_handler_of_set d h]
    exact ((irqFrame_writel_sts _ d).trans (irqFrame_writel_enable _ _)).trans (IrqFrame.flag _ _)
  · rw [irq_handler_of_clear d h]
    exact IrqFrame.refl d

theorem irqFrame_wait_sleep (n : Nat) (es : List WaitEvent) (d : Dev) :
    IrqFrame d (wait_sleep n es d).2 := by
  induction es generalizing n d with
  | nil => cases n <;> exact IrqFrame.refl d
  | cons e es ih =>
    cases n with
    | zero => exact IrqFrame.refl d
    | succ n =>
      cases e with
      | tick => exact ih n d
      | signal => exact IrqFrame.refl d
      | irq sts =>
        have hf := (irqFrame_latch sts d).trans (irqFrame_handler (hw_latch_status sts d))
        simp only [wait_sleep]
        split_ifs with h
        · exact hf
        · exact hf.trans (ih _ _)

theorem irqFrame_wait (t : Nat) (es : List WaitEvent) (d : Dev) :
    IrqFrame d (wait_event_interruptible_timeout t es d).2 := by
  by_cases h : d.rx_chsts_updated = true
  · simp only [wait_event_interruptible_timeout, h, if_true]
    exact IrqFrame.refl d
  · simp only [wait_event_interruptible_timeout, h, if_false]
    exact irqFrame_wait_sleep t es d

theorem irqFrame_rx_stream_detect (hz : Nat) (es : List WaitEvent) (d : Dev) :
    IrqFrame d (rx_stream_detect hz es d).2 := by
  unfold rx_stream_detect
  simp only
  split_ifs
  · exact irqFrame_wait _ es d
  · exact (irqFrame_wait _ es d).trans (IrqFrame.flag _ _)

/-! ## The words `xlnx_spdif_trigger` and `xlnx_spdif_startup` store -/

theorem enable_set_val {v : Nat} (hv : v < 2 ^ 32) :
    u32 (v ||| XSPDIF_CONTROL_ENABLE_MASK) = v ||| 1 := by
  have hm : XSPDIF_CONTROL_ENABLE_MASK = 1 := by decide
  rw [hm]
  exact u32_of_lt (Nat.or_lt_two_pow hv (by decide))

theorem flush_set_val {v : Nat} (hv : v < 2 ^ 32) :
    u32 (v ||| XSPDIF_CONTROL_FIFO_FLUSH_MASK) = v ||| 2 := by
  have hm : XSPDIF_CONTROL_FIFO_FLUSH_MASK = 2 := by decide
  rw [hm]
  exact u32_of_lt (Nat.or_lt_two_pow hv (by decide))

theorem testBit_enable_clear (v i : Nat) :
    (v &&& (0xFFFFFFFF ^^^ 1)).testBit i = (decide (i < 32) && decide (i ≠ 0) && v.testBit i) := by
  have hm : (0xFFFFFFFF ^^^ 1 : Nat) = (2 ^ 32 - 1) ^^^ 2 ^ 0 := by decide
  rw [hm, Nat.testBit_and, Nat.testBit_xor, Nat.testBit_two_pow_sub_one, Nat.testBit_two_pow]
  by_cases h0 : i = 0
  · subst h0
    simp
  · have h0' : ¬ 0 = i := fun h => h0 h.symm
    by_cases h32 : i < 32 <;> simp [h32, h0, h0']

theorem enable_clear_val (v : Nat) :
    u32 (v &&& bnot XSPDIF_CONTROL_ENABLE_MASK) = v &&& (0xFFFFFFFF ^^^ 1) := by
  apply Nat.eq_of_testBit_eq
  intro i
  rw [testBit_enable_clear, testBit_u32, Nat.testBit_and, testBit_bnot,
    XSPDIF_CONTROL_ENABLE_MASK, testBit_BIT 0 i (by decide)]
  by_cases h32 : i < 32
  · have h64 : i < 64 := by omega
    by_cases h0 : i = 0
    · subst h0
      simp
    · have h0' : ¬ 0 = i := fun h => h0 h.symm
      simp [h32, h64, h0, h0']
  · simp [h32]

theorem testBit_enable_set (v i : Nat) :
    (v ||| 1).testBit i = (decide (i = 0) || v.testBit i) := by
  have hm : (1 : Nat) = 2 ^ 0 := by decide
  rw [Nat.testBit_or, hm, Nat.testBit_two_pow, Bool.or_comm]
  by_cases h0 : i = 0
  · subst h0
    simp
  · have h0' : ¬ 0 = i := fun h => h0 h.symm
    simp [h0, h0']

/-! ## The three branches of `xlnx_spdif_trigger` -/

theorem trigger_start_class (stream : Nat) (cmd : Int) (hz : Nat) (es : List WaitEvent)
    (d : Dev)
    (hcmd : cmd ∈ [SNDRV_PCM_TRIGGER_START, SNDRV_PCM_TRIGGER_RESUME,
      SNDRV_PCM_TRIGGER_PAUSE_RELEASE]) :
    xlnx_spdif_trigger stream cmd hz es d =
      if stream = SNDRV_PCM_STREAM_CAPTURE then
        rx_stream_detect hz es
          (writel (readl d XSPDIF_CONTROL_REG ||| 1) XSPDIF_CONTROL_REG d)
      else (0, writel (readl d XSPDIF_CONTROL_REG ||| 1) XSPDIF_CONTROL_REG d) := by
  have hc : cmd = SNDRV_PCM_TRIGGER_START ∨ cmd = SNDRV_PCM_TRIGGER_RESUME ∨
      cmd = SNDRV_PCM_TRIGGER_PAUSE_RELEASE := by simpa using hcmd
  simp only [xlnx_spdif_trigger, if_pos hc, enable_set_val (u32_lt _), readl]

theorem trigger_stop_class (stream : Nat) (cmd : Int) (hz : Nat) (es : List WaitEvent)
    (d : Dev)
    (hcmd : cmd ∈ [SNDRV_PCM_TRIGGER_STOP, SNDRV_PCM_TRIGGER_SUSPEND,
      SNDRV_PCM_TRIGGER_PAUSE_PUSH]) :
    xlnx_spdif_trigger stream cmd hz es d =
      (0, writel (readl d XSPDIF_CONTROL_REG &&& (0xFFFFFFFF ^^^ 1)) XSPDIF_CONTROL_REG d) := by
  have hc : cmd = SNDRV_PCM_TRIGGER_STOP ∨ cmd = SNDRV_PCM_TRIGGER_SUSPEND ∨
      cmd = SNDRV_PCM_TRIGGER_PAUSE_PUSH := by simpa using hcmd
  have hn : ¬ (cmd = SNDRV_PCM_TRIGGER_START ∨ cmd = SNDRV_PCM_TRIGGER_RESUME ∨
      cmd = SNDRV_PCM_TRIGGER_PAUSE_RELEASE) := by
    rcases hc with h | h | h <;> rw [h] <;> decide
  simp only [xlnx_spdif_trigger, if_neg hn, if_pos hc, enable_clear_val]

theorem trigger_other (stream : Nat) (cmd : Int) (hz : Nat) (es : List WaitEvent) (d : Dev)
    (hcmd : cmd ∉ [SNDRV_PCM_TRIGGER_START, SNDRV_PCM_TRIGGER_RESUME,
      SNDRV_PCM_TRIGGER_PAUSE_RELEASE, SNDRV_PCM_TRIGGER_STOP, SNDRV_PCM_TRIGGER_SUSPEND,
      SNDRV_PCM_TRIGGER_PAUSE_PUSH]) :
    xlnx_spdif_trigger stream cmd hz es d = (-EINVAL, d) := by
  simp only [List.mem_cons, List.mem_singleton, List.not_mem_nil, or_false, not_or] at hcmd
  obtain ⟨h1, h2, h3, h4, h5, h6⟩ := hcmd
  have hn : ¬ (cmd = SNDRV_PCM_TRIGGER_START ∨ cmd = SNDRV_PCM_TRIGGER_RESUME ∨
      cmd = SNDRV_PCM_TRIGGER_PAUSE_RELEASE) := by
    rintro (h | h | h) <;> contradiction
  have hn' : ¬ (cmd = SNDRV_PCM_TRIGGER_STOP ∨ cmd = SNDRV_PCM_TRIGGER_SUSPEND ∨
      cmd = SNDRV_PCM_TRIGGER_PAUSE_PUSH) := by
    rintro (h | h | h) <;> contradiction
  simp only [xlnx_spdif_trigger, if_neg hn, if_neg hn']

/-- A Start-class trigger on a capture stream writes the control register once,
with the enable bit set, and nothing after that write touches the register. -/
theorem trigger_capture_start_effect (cmd : Int) (hz : Nat) (es : List WaitEvent) (d : Dev)
    (hcmd : cmd ∈ [SNDRV_PCM_TRIGGER_START, SNDRV_PCM_TRIGGER_RESUME,
      SNDRV_PCM_TRIGGER_PAUSE_RELEASE]) :
    (xlnx_spdif_trigger SNDRV_PCM_STREAM_CAPTURE cmd hz es d).2.regs XSPDIF_CONTROL_REG =
      readl d XSPDIF_CONTROL_REG ||| 1 ∧
    ∃ tail, (xlnx_spdif_trigger SNDRV_PCM_STREAM_CAPTURE cmd hz es d).2.writes =
        d.writes ++ (XSPDIF_CONTROL_REG, readl d XSPDIF_CONTROL_REG ||| 1) :: tail ∧
      ∀ w ∈ tail, w.1 ≠ XSPDIF_CONTROL_REG := by
  rw [trigger_start_class _ cmd hz es d hcmd, if_pos rfl]
  have hval : u32 (readl d XSPDIF_CONTROL_REG ||| 1) = readl d XSPDIF_CONTROL_REG ||| 1 :=
    u32_of_lt (Nat.or_lt_two_pow (u32_lt _) (by decide))
  obtain ⟨hregs, tail, hw, hmem⟩ := irqFrame_rx_stream_detect hz es
    (writel (readl d XSPDIF_CONTROL_REG ||| 1) XSPDIF_CONTROL_REG d)
  refine ⟨?_, tail, ?_, ?_⟩
  · rw [hregs _ (by decide) (by decide)]
    simp only [writel, if_true, hval]
  · rw [hw]
    simp only [writel, hval, List.append_assoc, List.singleton_append]
  · intro w hwt
    rcases hmem w hwt with h | h <;> rw [h] <;> decide

/-! ## Trigger: C7 - C10 -/

/-- C7: on a playback stream with the control register reading `v`, each of
START, RESUME and PAUSE_RELEASE writes `v OR 1` and returns 0 whatever the
detection flag and whatever happens meanwhile; each of STOP, SUSPEND and
PAUSE_PUSH writes `v AND NOT 1` and returns 0; any other command returns
`-EINVAL` and leaves the device as it was.  The written words differ from `v`
in the enable bit (bit 0) at most. -/
theorem C7_trigger_playback (hz : Nat) (es : List WaitEvent) (d : Dev) (v : Nat)
    (hv : v = readl d XSPDIF_CONTROL_REG) :
    (∀ cmd ∈ [SNDRV_PCM_TRIGGER_START, SNDRV_PCM_TRIGGER_RESUME,
        SNDRV_PCM_TRIGGER_PAUSE_RELEASE],
      xlnx_spdif_trigger SNDRV_PCM_STREAM_PLAYBACK cmd hz es d =
        (0, writel (v ||| 1) XSPDIF_CONTROL_REG d)) ∧
    (∀ cmd ∈ [SNDRV_PCM_TRIGGER_STOP, SNDRV_PCM_TRIGGER_SUSPEND,
        SNDRV_PCM_TRIGGER_PAUSE_PUSH],
      xlnx_spdif_trigger SNDRV_PCM_STREAM_PLAYBACK cmd hz es d =
        (0, writel (v &&& (0xFFFFFFFF ^^^ 1)) XSPDIF_CONTROL_REG d)) ∧
    (∀ cmd, cmd ∉ [SNDRV_PCM_TRIGGER_START, SNDRV_PCM_TRIGGER_RESUME,
        SNDRV_PCM_TRIGGER_PAUSE_RELEASE, SNDRV_PCM_TRIGGER_STOP, SNDRV_PCM_TRIGGER_SUSPEND,
        SNDRV_PCM_TRIGGER_PAUSE_PUSH] →
      xlnx_spdif_trigger SNDRV_PCM_STREAM_PLAYBACK cmd hz es d = (-EINVAL, d)) ∧
    (writel (v ||| 1) XSPDIF_CONTROL_REG d).writes =
      d.writes ++ [(XSPDIF_CONTROL_REG, v ||| 1)] ∧
    (writel (v &&& (0xFFFFFFFF ^^^ 1)) XSPDIF_CONTROL_REG d).writes =
      d.writes ++ [(XSPDIF_CONTROL_REG, v &&& (0xFFFFFFFF ^^^ 1))] ∧
    (v ||| 1).testBit 0 = true ∧ (v &&& (0xFFFFFFFF ^^^ 1)).testBit 0 = false ∧
    ∀ i, i ≠ 0 → (v ||| 1).testBit i = v.testBit i ∧
      (v &&& (0xFFFFFFFF ^^^ 1)).testBit i = v.testBit i := by
  have hv32 : v < 2 ^ 32 := hv ▸ u32_lt _
  have hset : u32 (v ||| 1) = v ||| 1 := u32_of_lt (Nat.or_lt_two_pow hv32 (by decide))
  have hclr : u32 (v &&& (0xFFFFFFFF ^^^ 1)) = v &&& (0xFFFFFFFF ^^^ 1) :=
    u32_of_lt (lt_of_le_of_lt Nat.and_le_left hv32)
  refine ⟨fun cmd hcmd => ?_, fun cmd hcmd => ?_, fun cmd hcmd => ?_, ?_, ?_, ?_, ?_,
    fun i hi => ⟨?_, ?_⟩⟩
  · rw [trigger_start_class _ cmd hz es d hcmd, if_neg (by decide), hv]
  · rw [trigger_stop_class _ cmd hz es d hcmd, hv]
  · exact trigger_other _ cmd hz es d hcmd
  · simp only [writel, hset]
  · simp only [writel, hclr]
  · simp [testBit_enable_set]
  · simp [testBit_enable_clear]
  · rw [testBit_enable_set]
    simp [hi]
  · rw [testBit_enable_clear]
    by_cases h32 : i < 32
    · simp [h32, hi]
    · have hvi : v.testBit i = false := testBit_of_lt_of_le hv32 (by omega)
      simp [h32, hvi]

/-- Witness of C7: START on a playback stream whose control register reads
`0x0A` writes `0x0B`. -/
theorem C7_trigger_playback_witness :
    xlnx_spdif_trigger SNDRV_PCM_STREAM_PLAYBACK SNDRV_PCM_TRIGGER_START 250 []
        (writel 0x0A XSPDIF_CONTROL_REG Dev.zero) =
      (0, writel (0x0A ||| 1) XSPDIF_CONTROL_REG (writel 0x0A XSPDIF_CONTROL_REG Dev.zero)) :=
  (C7_trigger_playback 250 [] (writel 0x0A XSPDIF_CONTROL_REG Dev.zero) 0x0A
    (by decide)).1 SNDRV_PCM_TRIGGER_START (by decide)

/-- C8: on a capture stream with the control register reading `v`, when the
bounded wait of a Start-class command returns 0 (timeout), `xlnx_spdif_trigger`
returns the non-zero error `-EINVAL`; the only write to the control register is
that of `v OR 1`, and the register still holds `v OR 1`, enable bit set, when
the call returns. -/
theorem C8_trigger_capture_timeout (cmd : Int) (hz : Nat) (es : List WaitEvent) (d : Dev)
    (v : Nat)
    (hcmd : cmd ∈ [SNDRV_PCM_TRIGGER_START, SNDRV_PCM_TRIGGER_RESUME,
      SNDRV_PCM_TRIGGER_PAUSE_RELEASE])
    (hv : v = readl d XSPDIF_CONTROL_REG)
    (h0 : (wait_event_interruptible_timeout
      (msecs_to_jiffies hz XSPDIF_CH_STS_UPDATE_TIMEOUT) es
      (writel (v ||| 1) XSPDIF_CONTROL_REG d)).1 = 0) :
    (xlnx_spdif_trigger SNDRV_PCM_STREAM_CAPTURE cmd hz es d).1 = -EINVAL ∧
    (xlnx_spdif_trigger SNDRV_PCM_STREAM_CAPTURE cmd hz es d).1 ≠ 0 ∧
    (xlnx_spdif_trigger SNDRV_PCM_STREAM_CAPTURE cmd hz es d).2.regs XSPDIF_CONTROL_REG =
      v ||| 1 ∧
    ((xlnx_spdif_trigger SNDRV_PCM_STREAM_CAPTURE cmd hz es d).2.regs
      XSPDIF_CONTROL_REG).testBit 0 = true ∧
    ∃ tail, (xlnx_spdif_trigger SNDRV_PCM_STREAM_CAPTURE cmd hz es d).2.writes =
        d.writes ++ (XSPDIF_CONTROL_REG, v ||| 1) :: tail ∧
      ∀ w ∈ tail, w.1 ≠ XSPDIF_CONTROL_REG := by
  have hret : (xlnx_spdif_trigger SNDRV_PCM_STREAM_CAPTURE cmd hz es d).1 = -EINVAL := by
    rw [trigger_start_class _ cmd hz es d hcmd, if_pos rfl, ← hv]
    simp only [rx_stream_detect, h0, if_true]
  obtain ⟨hregs, hwrites⟩ := trigger_capture_start_effect cmd hz es d hcmd
  rw [← hv] at hregs hwrites
  refine ⟨hret, ?_, hregs, ?_, hwrites⟩
  · rw [hret]
    decide
  · rw [hregs, testBit_enable_set]
    rfl

/-- Witness of C8: START on a capture stream while nothing happens during the
wait. -/
theorem C8_trigger_capture_timeout_witness :
    (xlnx_spdif_trigger SNDRV_PCM_STREAM_CAPTURE SNDRV_PCM_TRIGGER_START 250 []
      Dev.zero).1 = -EINVAL ∧
    (xlnx_spdif_trigger SNDRV_PCM_STREAM_CAPTURE SNDRV_PCM_TRIGGER_START 250 []
      Dev.zero).2.regs XSPDIF_CONTROL_REG = 0 ||| 1 :=
  ⟨(C8_trigger_capture_timeout SNDRV_PCM_TRIGGER_START 250 [] Dev.zero 0 (by decide)
      (by decide) (by decide)).1,
   (C8_trigger_capture_timeout SNDRV_PCM_TRIGGER_START 250 [] Dev.zero 0 (by decide)
      (by decide) (by decide)).2.2.1⟩

/-- C9 at the failing input: START on a capture stream with the flag clear and
a signal pending during the wait.  The bounded wait ends with `-ERESTARTSYS`,
the flag is still clear, that is no channel-status update was seen, and
`xlnx_spdif_trigger` returns 0. -/
theorem C9_trigger_capture_interrupted :
    (wait_event_interruptible_timeout (msecs_to_jiffies 250 XSPDIF_CH_STS_UPDATE_TIMEOUT)
      [WaitEvent.signal] (writel 1 XSPDIF_CONTROL_REG Dev.zero)).1 = -ERESTARTSYS ∧
    (wait_event_interruptible_timeout (msecs_to_jiffies 250 XSPDIF_CH_STS_UPDATE_TIMEOUT)
      [WaitEvent.signal] (writel 1 XSPDIF_CONTROL_REG Dev.zero)).2.rx_chsts_updated = false ∧
    (xlnx_spdif_trigger SNDRV_PCM_STREAM_CAPTURE SNDRV_PCM_TRIGGER_START 250
      [WaitEvent.signal] Dev.zero).1 = 0 := by
  decide

/-- Counterexample to C10: START on a capture stream whose registers read zero,
with the channel-status interrupt arriving one jiffy into the wait, succeeds;
its first write is the one that sets enable, and no write of the call has the
FIFO-flush bit (bit 1) set. -/
theorem C10_counterexample :
    (xlnx_spdif_trigger SNDRV_PCM_STREAM_CAPTURE SNDRV_PCM_TRIGGER_START 250
      [WaitEvent.tick, WaitEvent.irq 0x20] Dev.zero).1 = 0 ∧
    (xlnx_spdif_trigger SNDRV_PCM_STREAM_CAPTURE SNDRV_PCM_TRIGGER_START 250
      [WaitEvent.tick, WaitEvent.irq 0x20] Dev.zero).2.writes =
        [(XSPDIF_CONTROL_REG, 1), (XSPDIF_IRQ_STS_REG, 0x20), (XSPDIF_IRQ_ENABLE_REG, 0)] ∧
    ∀ w ∈ (xlnx_spdif_trigger SNDRV_PCM_STREAM_CAPTURE SNDRV_PCM_TRIGGER_START 250
      [WaitEvent.tick, WaitEvent.irq 0x20] Dev.zero).2.writes, w.2.testBit 1 = false := by
  decide

theorem startup_capture_eq (d : Dev) :
    xlnx_spdif_startup SNDRV_PCM_STREAM_CAPTURE d =
      (0, writel XSPDIF_GLOBAL_IRQ_ENABLE_MASK XSPDIF_GLOBAL_IRQ_REG
        (writel XSPDIF_IRQ_STS_CH_STS_MASK XSPDIF_IRQ_ENABLE_REG
          (writel (readl d XSPDIF_CONTROL_REG ||| 2) XSPDIF_CONTROL_REG d))) := by
  simp only [xlnx_spdif_startup, if_true, flush_set_val (u32_lt _), readl]

/-- C10 (amended): a Start-class `xlnx_spdif_trigger` on a capture stream writes
the control register once, with `v OR 1`, which sets enable and leaves the
FIFO-flush bit as it was in `v`; it is `xlnx_spdif_startup` that sets the
FIFO-flush bit, writing `v OR 2`.  When the trigger follows the startup, the
write with the flush bit set precedes the write that sets enable. -/
theorem C10_flush_in_startup (cmd : Int) (hz : Nat) (es : List WaitEvent) (d : Dev) (v : Nat)
    (hcmd : cmd ∈ [SNDRV_PCM_TRIGGER_START, SNDRV_PCM_TRIGGER_RESUME,
      SNDRV_PCM_TRIGGER_PAUSE_RELEASE])
    (hv : v = readl d XSPDIF_CONTROL_REG) :
    (∃ tail, (xlnx_spdif_trigger SNDRV_PCM_STREAM_CAPTURE cmd hz es d).2.writes =
        d.writes ++ (XSPDIF_CONTROL_REG, v ||| 1) :: tail ∧
      ∀ w ∈ tail, w.1 ≠ XSPDIF_CONTROL_REG) ∧
    (v ||| 1).testBit 1 = v.testBit 1 ∧
    (xlnx_spdif_startup SNDRV_PCM_STREAM_CAPTURE d).1 = 0 ∧
    (xlnx_spdif_startup SNDRV_PCM_STREAM_CAPTURE d).2.writes =
      d.writes ++ [(XSPDIF_CONTROL_REG, v ||| 2), (XSPDIF_IRQ_ENABLE_REG, 0x20),
        (XSPDIF_GLOBAL_IRQ_REG, 0x80000000)] ∧
    (v ||| 2).testBit 1 = true ∧
    (∃ tail, (xlnx_spdif_trigger SNDRV_PCM_STREAM_CAPTURE cmd hz es
          (xlnx_spdif_startup SNDRV_PCM_STREAM_CAPTURE d).2).2.writes =
        d.writes ++ [(XSPDIF_CONTROL_REG, v ||| 2), (XSPDIF_IRQ_ENABLE_REG, 0x20),
          (XSPDIF_GLOBAL_IRQ_REG, 0x80000000), (XSPDIF_CONTROL_REG, (v ||| 2) ||| 1)] ++ tail ∧
      ∀ w ∈ tail, w.1 ≠ XSPDIF_CONTROL_REG) ∧
    ((v ||| 2) ||| 1).testBit 0 = true := by
  have hv32 : v < 2 ^ 32 := hv ▸ u32_lt _
  have hflush : u32 (v ||| 2) = v ||| 2 := u32_of_lt (Nat.or_lt_two_pow hv32 (by decide))
  have h5 : u32 XSPDIF_IRQ_STS_CH_STS_MASK = 0x20 := by decide
  have h31 : u32 XSPDIF_GLOBAL_IRQ_ENABLE_MASK = 0x80000000 := by decide
  have hsw : (xlnx_spdif_startup SNDRV_PCM_STREAM_CAPTURE d).2.writes =
      d.writes ++ [(XSPDIF_CONTROL_REG, v ||| 2), (XSPDIF_IRQ_ENABLE_REG, 0x20),
        (XSPDIF_GLOBAL_IRQ_REG, 0x80000000)] := by
    rw [startup_capture_eq, ← hv]
    simp only [writel, hflush, h5, h31, List.append_assoc, List.singleton_append,
      List.cons_append, List.nil_append]
  have hsr : readl (xlnx_spdif_startup SNDRV_PCM_STREAM_CAPTURE d).2 XSPDIF_CONTROL_REG =
      v ||| 2 := by
    rw [startup_capture_eq, ← hv]
    have h1 : ¬ XSPDIF_CONTROL_REG = XSPDIF_GLOBAL_IRQ_REG := by decide
    have h2 : ¬ XSPDIF_CONTROL_REG = XSPDIF_IRQ_ENABLE_REG := by decide
    simp only [readl, writel, h1, h2, if_false, if_true, hflush]
  have ht := (trigger_capture_start_effect cmd hz es d hcmd).2
  rw [← hv] at ht
  obtain ⟨tail, hw, hmem⟩ :=
    (trigger_capture_start_effect cmd hz es
      (xlnx_spdif_startup SNDRV_PCM_STREAM_CAPTURE d).2 hcmd).2
  rw [hsr, hsw] at hw
  refine ⟨ht, ?_, ?_, hsw, ?_, ⟨tail, ?_, hmem⟩, ?_⟩
  · rw [testBit_enable_set]
    simp
  · rw [startup_capture_eq]
  · have h2 : (2 : Nat) = 2 ^ 1 := by decide
    rw [Nat.testBit_or, h2, Nat.testBit_two_pow_self, Bool.or_true]
  · rw [hw]
    simp only [List.append_assoc, List.cons_append, List.nil_append]
  · rw [testBit_enable_set]
    rfl

/-- Witness of C10: startup then START on a capture stream whose registers read
zero, with the channel-status interrupt arriving one jiffy into the wait. -/
theorem C10_flush_in_startup_witness :
    (xlnx_spdif_startup SNDRV_PCM_STREAM_CAPTURE Dev.zero).2.writes =
      Dev.zero.writes ++ [(XSPDIF_CONTROL_REG, 0 ||| 2), (XSPDIF_IRQ_ENABLE_REG, 0x20),
        (XSPDIF_GLOBAL_IRQ_REG, 0x80000000)] :=
  (C10_flush_in_startup SNDRV_PCM_TRIGGER_START 250 [WaitEvent.tick, WaitEvent.irq 0x20]
    Dev.zero 0 (by decide) (by decide)).2.2.2.1

/-! ## Interrupt handler: C14 -/

theorem and_two_pow_eq (s n : Nat) : s &&& 2 ^ n = if s.testBit n then 2 ^ n else 0 := by
  apply Nat.eq_of_testBit_eq
  intro i
  rw [Nat.testBit_and, Nat.testBit_two_pow]
  by_cases hb : s.testBit n = true
  · rw [if_pos hb, Nat.testBit_two_pow]
    by_cases hi : n = i
    · subst hi
      simp [hb]
    · simp [hi]
  · rw [if_neg hb, Nat.zero_testBit]
    by_cases hi : n = i
    · subst hi
      simp [hb]
    · simp [hi]

theorem ch_sts_mask_eq : XSPDIF_IRQ_STS_CH_STS_MASK = 2 ^ 5 := by decide

theorem and_ch_sts_mask_ne_zero (s : Nat) :
    s &&& XSPDIF_IRQ_STS_CH_STS_MASK ≠ 0 ↔ s.testBit 5 = true := by
  rw [ch_sts_mask_eq, and_two_pow_eq]
  by_cases hb : s.testBit 5 = true
  · simp [hb]
  · simp [hb]

theorem testBit_ch_sts_clear (v i : Nat) :
    (v &&& (0xFFFFFFFF ^^^ 0x20)).testBit i =
      (decide (i < 32) && decide (i ≠ 5) && v.testBit i) := by
  have hm : (0xFFFFFFFF ^^^ 0x20 : Nat) = (2 ^ 32 - 1) ^^^ 2 ^ 5 := by decide
  rw [hm, Nat.testBit_and, Nat.testBit_xor, Nat.testBit_two_pow_sub_one, Nat.testBit_two_pow]
  by_cases h5 : i = 5
  · subst h5
    simp
  · have h5' : ¬ 5 = i := fun h => h5 h.symm
    by_cases h32 : i < 32 <;> simp [h32, h5, h5']

theorem ch_sts_clear_val (v : Nat) :
    u32 (v &&& bnot XSPDIF_IRQ_STS_CH_STS_MASK) = v &&& (0xFFFFFFFF ^^^ 0x20) := by
  apply Nat.eq_of_testBit_eq
  intro i
  rw [testBit_ch_sts_clear, testBit_u32, Nat.testBit_and, testBit_bnot,
    XSPDIF_IRQ_STS_CH_STS_MASK, testBit_BIT 5 i (by decide)]
  by_cases h32 : i < 32
  · have h64 : i < 64 := by omega
    by_cases h5 : i = 5
    · subst h5
      simp
    · have h5' : ¬ 5 = i := fun h => h5 h.symm
      simp [h32, h64, h5, h5']
  · simp [h32]

/-- C14: with `s` the interrupt status and `e` the interrupt enable the handler
reads.  If bit 5 of `s` is set, the handler writes `s AND BIT(5)`, which is
`BIT(5)` alone, to the status register, then `e AND NOT BIT(5)` to the
interrupt-enable register, a word that differs from `e` in bit 5 only, sets
`rx_chsts_updated` and returns `IRQ_HANDLED`.  If bit 5 of `s` is clear, it
returns `IRQ_NONE` and the device, flag and writes included, is as before. -/
theorem C14_irq_handler (d : Dev) (s e : Nat) (hs : s = readl d XSPDIF_IRQ_STS_REG)
    (he : e = readl d XSPDIF_IRQ_ENABLE_REG) :
    (s.testBit 5 = true →
      xlnx_spdifrx_irq_handler d =
        (IRQ_HANDLED,
          { writel (e &&& (0xFFFFFFFF ^^^ 0x20)) XSPDIF_IRQ_ENABLE_REG
              (writel (s &&& 0x20) XSPDIF_IRQ_STS_REG d) with rx_chsts_updated := true }) ∧
      (xlnx_spdifrx_irq_handler d).2.writes =
        d.writes ++ [(XSPDIF_IRQ_STS_REG, s &&& 0x20),
          (XSPDIF_IRQ_ENABLE_REG, e &&& (0xFFFFFFFF ^^^ 0x20))] ∧
      s &&& 0x20 = 0x20 ∧
      (e &&& (0xFFFFFFFF ^^^ 0x20)).testBit 5 = false ∧
      (∀ i, i ≠ 5 → (e &&& (0xFFFFFFFF ^^^ 0x20)).testBit i = e.testBit i) ∧
      (xlnx_spdifrx_irq_handler d).2.rx_chsts_updated = true) ∧
    (s.testBit 5 = false →
      xlnx_spdifrx_irq_handler d = (IRQ_NONE, d)) := by
  have hs32 : s < 2 ^ 32 := hs ▸ u32_lt _
  have he32 : e < 2 ^ 32 := he ▸ u32_lt _
  have hmask : XSPDIF_IRQ_STS_CH_STS_MASK = 0x20 := by decide
  constructor
  · intro hbit
    have hcond : readl d XSPDIF_IRQ_STS_REG &&& XSPDIF_IRQ_STS_CH_STS_MASK ≠ 0 := by
      rw [← hs]
      exact (and_ch_sts_mask_ne_zero s).mpr hbit
    have hre : readl (writel (s &&& 0x20) XSPDIF_IRQ_STS_REG d) XSPDIF_IRQ_ENABLE_REG = e := by
      rw [he]
      have hne : ¬ XSPDIF_IRQ_ENABLE_REG = XSPDIF_IRQ_STS_REG := by decide
      simp only [readl, writel, hne, if_false]
    have hack : u32 (s &&& 0x20) = s &&& 0x20 :=
      u32_of_lt (lt_of_le_of_lt Nat.and_le_left hs32)
    have hdis : u32 (e &&& (0xFFFFFFFF ^^^ 0x20)) = e &&& (0xFFFFFFFF ^^^ 0x20) :=
      u32_of_lt (lt_of_le_of_lt Nat.and_le_left he32)
    have heq : xlnx_spdifrx_irq_handler d =
        (IRQ_HANDLED,
          { writel (e &&& (0xFFFFFFFF ^^^ 0x20)) XSPDIF_IRQ_ENABLE_REG
              (writel (s &&& 0x20) XSPDIF_IRQ_STS_REG d) with rx_chsts_updated := true }) := by
      rw [irq_handler_of_set d hcond, ← hs, hmask, hre]
      have hw : writel (e &&& bnot 0x20) XSPDIF_IRQ_ENABLE_REG
          (writel (s &&& 0x20) XSPDIF_IRQ_STS_REG d) =
          writel (e &&& (0xFFFFFFFF ^^^ 0x20)) XSPDIF_IRQ_ENABLE_REG
            (writel (s &&& 0x20) XSPDIF_IRQ_STS_REG d) := by
        have hv := ch_sts_clear_val e
        rw [hmask] at hv
        simp only [writel, hv, hdis]
      rw [hw]
    refine ⟨heq, ?_, ?_, ?_, ?_, ?_⟩
    · rw [heq]
      simp only [writel, hack, hdis, List.append_assoc, List.singleton_append,
        List.cons_append, List.nil_append]
    · have h := and_two_pow_eq s 5
      rw [if_pos hbit] at h
      exact h
    · rw [testBit_ch_sts_clear]
      simp
    · intro i hi
      rw [testBit_ch_sts_clear]
      by_cases h32 : i < 32
      · simp [h32, hi]
      · have hei : e.testBit i = false := testBit_of_lt_of_le he32 (by omega)
        simp [h32, hei]
    · rw [heq]
  · intro hbit
    apply irq_handler_of_clear
    rw [← hs, and_ch_sts_mask_ne_zero]
    simp [hbit]

/-- Witness of C14: status `0x21` with every source enabled (`0xFFFFFFFF`). -/
theorem C14_irq_handler_witness :
    (xlnx_spdifrx_irq_handler
      (writel 0xFFFFFFFF XSPDIF_IRQ_ENABLE_REG (hw_latch_status 0x21 Dev.zero))).2.writes =
      (writel 0xFFFFFFFF XSPDIF_IRQ_ENABLE_REG (hw_latch_status 0x21 Dev.zero)).writes ++
        [(XSPDIF_IRQ_STS_REG, 0x21 &&& 0x20),
          (XSPDIF_IRQ_ENABLE_REG, 0xFFFFFFFF &&& (0xFFFFFFFF ^^^ 0x20))] :=
  ((C14_irq_handler (writel 0xFFFFFFFF XSPDIF_IRQ_ENABLE_REG (hw_latch_status 0x21 Dev.zero))
    0x21 0xFFFFFFFF (by decide) (by decide)).1 (by decide)).2.1

/-! ## Stream detection: C11, C12 -/

theorem irq_handler_flag_true (d : Dev)
    (h : readl d XSPDIF_IRQ_STS_REG &&& XSPDIF_IRQ_STS_CH_STS_MASK ≠ 0) :
    (xlnx_spdifrx_irq_handler d).2.rx_chsts_updated = true := by
  rw [irq_handler_of_set d h]

/-- A handler run that leaves the flag clear has done nothing. -/
theorem irq_handler_of_flag_false (d : Dev)
    (h : (xlnx_spdifrx_irq_handler d).2.rx_chsts_updated = false) :
    (xlnx_spdifrx_irq_handler d).2 = d := by
  by_cases hc : readl d XSPDIF_IRQ_STS_REG &&& XSPDIF_IRQ_STS_CH_STS_MASK ≠ 0
  · rw [irq_handler_flag_true d hc] at h
    exact absurd h (by decide)
  · rw [irq_handler_of_clear d hc]

theorem wait_sleep_nil (n : Nat) (d : Dev) : wait_sleep n [] d = (0, d) := by
  cases n <;> rfl

/-- A sleep that ends with result 0 leaves the flag clear and has seen no
handler run that wrote a register. -/
theorem wait_sleep_zero (n : Nat) (es : List WaitEvent) (d : Dev)
    (hf : d.rx_chsts_updated = false) (h0 : (wait_sleep n es d).1 = 0) :
    (wait_sleep n es d).2.rx_chsts_updated = false ∧ (wait_sleep n es d).2.writes = d.writes := by
  induction es generalizing n d with
  | nil =>
    rw [wait_sleep_nil]
    exact ⟨hf, rfl⟩
  | cons e es ih =>
    cases n with
    | zero => exact ⟨hf, rfl⟩
    | succ n =>
      cases e with
      | tick => exact ih n d hf h0
      | signal =>
        have hne : (-ERESTARTSYS : Int) ≠ 0 := by decide
        exact absurd h0 hne
      | irq sts =>
        simp only [wait_sleep] at h0 ⊢
        by_cases hflag :
            (xlnx_spdifrx_irq_handler (hw_latch_status sts d)).2.rx_chsts_updated = true
        · rw [if_pos hflag] at h0
          have hpos : ((n + 1 : Nat) : Int) ≠ 0 := by omega
          exact absurd h0 hpos
        · rw [if_neg hflag] at h0 ⊢
          have hfalse : (xlnx_spdifrx_irq_handler
              (hw_latch_status sts d)).2.rx_chsts_updated = false := by
            simpa using hflag
          have hsame := irq_handler_of_flag_false _ hfalse
          have h := ih (n + 1) _ hfalse h0
          refine ⟨h.1, ?_⟩
          rw [h.2, hsame]
          rfl

theorem wait_of_flag_set (t : Nat) (es : List WaitEvent) (d : Dev)
    (h : d.rx_chsts_updated = true) :
    wait_event_interruptible_timeout t es d = (((if t = 0 then 1 else t : Nat) : Int), d) := by
  simp only [wait_event_interruptible_timeout, h, if_true]

theorem wait_of_flag_clear (t : Nat) (es : List WaitEvent) (d : Dev)
    (h : d.rx_chsts_updated = false) :
    wait_event_interruptible_timeout t es d = wait_sleep t es d := by
  simp [wait_event_interruptible_timeout, h]

/-- A bounded wait that returns 0 was entered with the flag clear, leaves it
clear and has seen no handler run that wrote a register. -/
theorem wait_zero (t : Nat) (es : List WaitEvent) (d : Dev)
    (h0 : (wait_event_interruptible_timeout t es d).1 = 0) :
    d.rx_chsts_updated = false ∧
    (wait_event_interruptible_timeout t es d).2.rx_chsts_updated = false ∧
    (wait_event_interruptible_timeout t es d).2.writes = d.writes := by
  cases hf : d.rx_chsts_updated with
  | true =>
    rw [wait_of_flag_set t es d hf] at h0
    have hpos : (((if t = 0 then 1 else t : Nat) : Int)) ≠ 0 := by
      split_ifs <;> omega
    exact absurd h0 hpos
  | false =>
    rw [wait_of_flag_clear t es d hf] at h0 ⊢
    exact ⟨rfl, wait_sleep_zero t es d hf h0⟩

theorem rx_stream_detect_of_zero (hz : Nat) (es : List WaitEvent) (d : Dev)
    (h0 : (wait_event_interruptible_timeout
      (msecs_to_jiffies hz XSPDIF_CH_STS_UPDATE_TIMEOUT) es d).1 = 0) :
    rx_stream_detect hz es d =
      (-EINVAL, (wait_event_interruptible_timeout
        (msecs_to_jiffies hz XSPDIF_CH_STS_UPDATE_TIMEOUT) es d).2) := by
  simp only [rx_stream_detect, h0, if_true]

theorem rx_stream_detect_of_ne_zero (hz : Nat) (es : List WaitEvent) (d : Dev)
    (h0 : (wait_event_interruptible_timeout
      (msecs_to_jiffies hz XSPDIF_CH_STS_UPDATE_TIMEOUT) es d).1 ≠ 0) :
    rx_stream_detect hz es d =
      (0, { (wait_event_interruptible_timeout
        (msecs_to_jiffies hz XSPDIF_CH_STS_UPDATE_TIMEOUT) es d).2 with
          rx_chsts_updated := false }) := by
  simp only [rx_stream_detect, h0, if_false]

theorem rx_stream_detect_quiet (hz : Nat) (d : Dev) (hf : d.rx_chsts_updated = false) :
    rx_stream_detect hz [] d = (-EINVAL, d) := by
  have hw : wait_event_interruptible_timeout
      (msecs_to_jiffies hz XSPDIF_CH_STS_UPDATE_TIMEOUT) [] d = (0, d) := by
    rw [wait_of_flag_clear _ _ d hf, wait_sleep_nil]
  rw [rx_stream_detect_of_zero hz [] d (by rw [hw]), hw]

theorem rx_stream_detect_of_flag_set (hz : Nat) (es : List WaitEvent) (d : Dev)
    (hf : d.rx_chsts_updated = true) :
    rx_stream_detect hz es d = (0, { d with rx_chsts_updated := false }) := by
  have hw := wait_of_flag_set (msecs_to_jiffies hz XSPDIF_CH_STS_UPDATE_TIMEOUT) es d hf
  have hne : (wait_event_interruptible_timeout
      (msecs_to_jiffies hz XSPDIF_CH_STS_UPDATE_TIMEOUT) es d).1 ≠ 0 := by
    rw [hw]
    show (((if _ = 0 then 1 else _ : Nat) : Int)) ≠ 0
    split_ifs <;> omega
  rw [rx_stream_detect_of_ne_zero hz es d hne, hw]

/-- Counterexample to C11: the handler runs with the channel-status bit set
while no detection is in progress; the next `rx_stream_detect`, during whose
wait nothing at all happens, returns 0. -/
theorem C11_counterexample :
    (xlnx_spdifrx_irq_handler (hw_latch_status 0x20 Dev.zero)).1 = IRQ_HANDLED ∧
    (xlnx_spdifrx_irq_handler (hw_latch_status 0x20 Dev.zero)).2.rx_chsts_updated = true ∧
    (rx_stream_detect 250 []
      (xlnx_spdifrx_irq_handler (hw_latch_status 0x20 Dev.zero)).2).1 = 0 := by
  decide

/-- C11 (amended): when the handler runs with the channel-status bit set while
no `rx_stream_detect` is in progress, the flag stays set, and the next
`rx_stream_detect` returns 0 at once on the strength of that event, whatever
happens during its wait, and clears the flag.  The event is used once: a
further `rx_stream_detect` during whose wait nothing happens returns
`-EINVAL`. -/
theorem C11_latched_detection (d : Dev) (sts hz : Nat) (es : List WaitEvent)
    (hbit : (u32 sts).testBit 5 = true) :
    (xlnx_spdifrx_irq_handler (hw_latch_status sts d)).2.rx_chsts_updated = true ∧
    rx_stream_detect hz es (xlnx_spdifrx_irq_handler (hw_latch_status sts d)).2 =
      (0, { (xlnx_spdifrx_irq_handler (hw_latch_status sts d)).2 with
        rx_chsts_updated := false }) ∧
    (rx_stream_detect hz []
      (rx_stream_detect hz es
        (xlnx_spdifrx_irq_handler (hw_latch_status sts d)).2).2).1 = -EINVAL := by
  have hread : readl (hw_latch_status sts d) XSPDIF_IRQ_STS_REG = u32 sts := by
    simp only [readl, hw_latch_status, if_true]
    exact u32_of_lt (u32_lt _)
  have hcond : readl (hw_latch_status sts d) XSPDIF_IRQ_STS_REG &&&
      XSPDIF_IRQ_STS_CH_STS_MASK ≠ 0 := by
    rw [hread]
    exact (and_ch_sts_mask_ne_zero _).mpr hbit
  have hflag := irq_handler_flag_true _ hcond
  have hdet := rx_stream_detect_of_flag_set hz es _ hflag
  refine ⟨hflag, hdet, ?_⟩
  rw [hdet, rx_stream_detect_quiet hz _ rfl]

/-- Witness of C11: status `0x20` latched on a device whose registers read
zero. -/
theorem C11_latched_detection_witness :
    (rx_stream_detect 250 [WaitEvent.tick]
      (xlnx_spdifrx_irq_handler (hw_latch_status 0x20 Dev.zero)).2).1 = 0 :=
  congrArg Prod.fst
    (C11_latched_detection Dev.zero 0x20 250 [WaitEvent.tick] (by decide)).2.1

/-- C12: whatever its outcome, `rx_stream_detect` returns with
`rx_chsts_updated` false.  It returns 0 or `-EINVAL`; it returns `-EINVAL`
exactly when the bounded wait returned 0, which happens only if the flag was
clear on entry and no handler run during the wait set it or wrote a register.
A following call during whose wait nothing happens then times out as a first
attempt would. -/
theorem C12_rx_stream_detect_returns_idle (hz : Nat) (es : List WaitEvent) (d : Dev) :
    (rx_stream_detect hz es d).2.rx_chsts_updated = false ∧
    ((rx_stream_detect hz es d).1 = 0 ∨ (rx_stream_detect hz es d).1 = -EINVAL) ∧
    ((rx_stream_detect hz es d).1 = -EINVAL ↔
      (wait_event_interruptible_timeout
        (msecs_to_jiffies hz XSPDIF_CH_STS_UPDATE_TIMEOUT) es d).1 = 0) ∧
    ((rx_stream_detect hz es d).1 = -EINVAL →
      d.rx_chsts_updated = false ∧ (rx_stream_detect hz es d).2.writes = d.writes) ∧
    (rx_stream_detect hz [] (rx_stream_detect hz es d).2).1 = -EINVAL := by
  have hE : (0 : Int) ≠ -EINVAL := by decide
  by_cases h0 : (wait_event_interruptible_timeout
      (msecs_to_jiffies hz XSPDIF_CH_STS_UPDATE_TIMEOUT) es d).1 = 0
  · obtain ⟨hf, hf', hw⟩ := wait_zero _ es d h0
    have hdet := rx_stream_detect_of_zero hz es d h0
    have hidle : (rx_stream_detect hz es d).2.rx_chsts_updated = false := by
      rw [hdet]
      exact hf'
    refine ⟨hidle, Or.inr (by rw [hdet]), ⟨fun _ => h0, fun _ => by rw [hdet]⟩,
      fun _ => ⟨hf, by rw [hdet]; exact hw⟩, ?_⟩
    rw [rx_stream_detect_quiet hz _ hidle]
  · have hdet := rx_stream_detect_of_ne_zero hz es d h0
    have hidle : (rx_stream_detect hz es d).2.rx_chsts_updated = false := by
      rw [hdet]
    refine ⟨hidle, Or.inl (by rw [hdet]), ⟨fun h => ?_, fun h => absurd h h0⟩,
      fun h => ?_, ?_⟩
    · rw [hdet] at h
      exact absurd h hE
    · rw [hdet] at h
      exact absurd h hE
    · rw [rx_stream_detect_quiet hz _ hidle]

/-- Witness of C12: a detection that succeeds on an interrupt two jiffies into
the wait returns with the flag clear. -/
theorem C12_rx_stream_detect_returns_idle_witness :
    (rx_stream_detect 250 [WaitEvent.tick, WaitEvent.tick, WaitEvent.irq 0x20]
      Dev.zero).2.rx_chsts_updated = false :=
  (C12_rx_stream_detect_returns_idle 250
    [WaitEvent.tick, WaitEvent.tick, WaitEvent.irq 0x20] Dev.zero).1

/-! ## Probe: C13 -/

theorem PTR_ERR_ne_zero {p : Int} (h : IS_ERR p = true) : PTR_ERR p ≠ 0 := by
  simp only [IS_ERR, decide_eq_true_eq] at h
  show p ≠ 0
  omega

/-- Case analysis of `probe_clocks`, entered with the axi clock enabled. -/
theorem probe_clocks_elim (env : ProbeEnv) (st : ProbeState) (P : Int × ProbeState → Prop)
    (hst : st.clk_ops = [ClkOp.enable Clk.axi_clk])
    (h1 : ∀ ret st, ret ≠ 0 →
      st.clk_ops = [ClkOp.enable Clk.axi_clk, ClkOp.disable Clk.axi_clk] → P (ret, st))
    (h2 : ∀ ret st, ret ≠ 0 → env.enable_axis_clk = 0 →
      st.clk_ops = [ClkOp.enable Clk.axi_clk, ClkOp.enable Clk.axis_clk,
        ClkOp.disable Clk.axis_clk, ClkOp.disable Clk.axi_clk] → P (ret, st))
    (h3 : ∀ ret st, ret ≠ 0 → env.enable_axis_clk = 0 → env.enable_aud_clk = 0 →
      st.clk_ops = [ClkOp.enable Clk.axi_clk, ClkOp.enable Clk.axis_clk,
        ClkOp.enable Clk.aud_clk, ClkOp.disable Clk.aud_clk, ClkOp.disable Clk.axis_clk,
        ClkOp.disable Clk.axi_clk] → P (ret, st))
    (hok : ∀ st, env.enable_axis_clk = 0 → env.enable_aud_clk = 0 →
      st.clk_ops = [ClkOp.enable Clk.axi_clk, ClkOp.enable Clk.axis_clk,
        ClkOp.enable Clk.aud_clk] → P (0, st)) :
    P (probe_clocks env st) := by
  unfold probe_clocks
  by_cases ha : IS_ERR env.get_aud_clk_i = true
  · rw [if_pos ha]
    exact h1 _ _ (PTR_ERR_ne_zero ha) (by show st.clk_ops ++ _ = _; rw [hst]; rfl)
  rw [if_neg ha]
  by_cases hx : env.enable_axis_clk ≠ 0
  · rw [if_pos hx]
    exact h1 _ _ hx (by show st.clk_ops ++ _ = _; rw [hst]; rfl)
  rw [if_neg hx]
  have hx0 : env.enable_axis_clk = 0 := not_not.mp hx
  by_cases hd : env.enable_aud_clk ≠ 0
  · simp only [if_pos hd]
    exact h2 _ _ hd hx0 (by show (st.clk_ops ++ _) ++ _ ++ _ = _; rw [hst]; rfl)
  simp only [if_neg hd]
  have hd0 : env.enable_aud_clk = 0 := not_not.mp hd
  by_cases hr : env.register_component ≠ 0
  · rw [if_pos hr]
    exact h3 _ _ hr hx0 hd0
      (by show (st.clk_ops ++ _) ++ _ ++ _ ++ _ ++ _ = _; rw [hst]; rfl)
  rw [if_neg hr]
  exact hok _ hx0 hd0 (by show (st.clk_ops ++ _) ++ _ = _; rw [hst]; rfl)

/-- Case analysis of `xlnx_spdif_probe`: every run ends in one of five ways,
told apart by the clock operations made. -/
theorem probe_elim (env : ProbeEnv) (P : Int × ProbeState → Prop)
    (h0 : ∀ ret st, ret ≠ 0 → st.clk_ops = [] → P (ret, st))
    (h1 : ∀ ret st, ret ≠ 0 → env.enable_axi_clk = 0 →
      st.clk_ops = [ClkOp.enable Clk.axi_clk, ClkOp.disable Clk.axi_clk] → P (ret, st))
    (h2 : ∀ ret st, ret ≠ 0 → env.enable_axi_clk = 0 → env.enable_axis_clk = 0 →
      st.clk_ops = [ClkOp.enable Clk.axi_clk, ClkOp.enable Clk.axis_clk,
        ClkOp.disable Clk.axis_clk, ClkOp.disable Clk.axi_clk] → P (ret, st))
    (h3 : ∀ ret st, ret ≠ 0 → env.enable_axi_clk = 0 → env.enable_axis_clk = 0 →
      env.enable_aud_clk = 0 →
      st.clk_ops = [ClkOp.enable Clk.axi_clk, ClkOp.enable Clk.axis_clk,
        ClkOp.enable Clk.aud_clk, ClkOp.disable Clk.aud_clk, ClkOp.disable Clk.axis_clk,
        ClkOp.disable Clk.axi_clk] → P (ret, st))
    (hok : ∀ st, env.enable_axi_clk = 0 → env.enable_axis_clk = 0 →
      env.enable_aud_clk = 0 →
      st.clk_ops = [ClkOp.enable Clk.axi_clk, ClkOp.enable Clk.axis_clk,
        ClkOp.enable Clk.aud_clk] → P (0, st)) :
    P (xlnx_spdif_probe env) := by
  have hE : (-ENOMEM : Int) ≠ 0 := by decide
  have hD : (-ENODEV : Int) ≠ 0 := by decide
  unfold xlnx_spdif_probe
  by_cases hk : (!env.kzalloc_ok) = true
  · simp only [if_pos hk]
    exact h0 _ _ hE rfl
  simp only [if_neg hk]
  by_cases hg : IS_ERR env.get_s_axi_aclk = true
  · rw [if_pos hg]
    exact h0 _ _ (PTR_ERR_ne_zero hg) rfl
  rw [if_neg hg]
  by_cases he : env.enable_axi_clk ≠ 0
  · rw [if_pos he]
    exact h0 _ _ he rfl
  rw [if_neg he]
  have he0 : env.enable_axi_clk = 0 := not_not.mp he
  have hclocks : ∀ st : ProbeState, st.clk_ops = [ClkOp.enable Clk.axi_clk] →
      P (probe_clocks env st) := fun st hst =>
    probe_clocks_elim env st P hst (fun ret st hr => h1 ret st hr he0)
      (fun ret st hr => h2 ret st hr he0) (fun ret st hr => h3 ret st hr he0)
      (fun st => hok st he0)
  by_cases hi : IS_ERR env.ioremap = true
  · rw [if_pos hi]
    exact h1 _ _ (PTR_ERR_ne_zero hi) he0 rfl
  rw [if_neg hi]
  by_cases hm : env.read_mode < 0
  · rw [if_pos hm]
    exact h1 _ _ (by omega) he0 rfl
  rw [if_neg hm]
  by_cases hmode : env.mode % 2 ^ 32 ≠ 0
  · rw [if_pos hmode]
    by_cases hs : IS_ERR env.get_s_axis_aclk = true
    · rw [if_pos hs]
      exact h1 _ _ (PTR_ERR_ne_zero hs) he0 rfl
    rw [if_neg hs]
    exact hclocks _ rfl
  rw [if_neg hmode]
  by_cases hs : IS_ERR env.get_m_axis_aclk = true
  · rw [if_pos hs]
    exact h1 _ _ (PTR_ERR_ne_zero hs) he0 rfl
  rw [if_neg hs]
  by_cases hres : (!env.irq_resource) = true
  · rw [if_pos hres]
    exact h1 _ _ hD he0 rfl
  rw [if_neg hres]
  by_cases hirq : env.request_irq ≠ 0
  · rw [if_pos hirq]
    exact h1 _ _ hD he0 rfl
  rw [if_neg hirq]
  exact hclocks _ rfl

theorem IS_ERR_false_of_not {p : Int} (h : ¬ IS_ERR p = true) : IS_ERR p = false := by
  simpa using h

/-- `probe_clocks` returns 0 exactly when each of its four calls succeeds. -/
theorem probe_clocks_ret_zero_iff (env : ProbeEnv) (st : ProbeState) :
    (probe_clocks env st).1 = 0 ↔
      (IS_ERR env.get_aud_clk_i = false ∧ env.enable_axis_clk = 0 ∧
        env.enable_aud_clk = 0 ∧ env.register_component = 0) := by
  unfold probe_clocks
  by_cases ha : IS_ERR env.get_aud_clk_i = true
  · rw [if_pos ha]
    show PTR_ERR env.get_aud_clk_i = 0 ↔ _
    have := PTR_ERR_ne_zero ha
    simp [ha, this]
  rw [if_neg ha]
  have ha' := IS_ERR_false_of_not ha
  by_cases hx : env.enable_axis_clk ≠ 0
  · rw [if_pos hx]
    show env.enable_axis_clk = 0 ↔ _
    simp [hx]
  rw [if_neg hx]
  have hx0 : env.enable_axis_clk = 0 := not_not.mp hx
  by_cases hd : env.enable_aud_clk ≠ 0
  · simp only [if_pos hd]
    show env.enable_aud_clk = 0 ↔ _
    simp [hd]
  simp only [if_neg hd]
  have hd0 : env.enable_aud_clk = 0 := not_not.mp hd
  by_cases hr : env.register_component ≠ 0
  · rw [if_pos hr]
    show env.register_component = 0 ↔ _
    simp [hr]
  rw [if_neg hr]
  have hr0 : env.register_component = 0 := not_not.mp hr
  show (0 : Int) = 0 ↔ _
  simp [ha', hx0, hd0, hr0]

/-- `xlnx_spdif_probe` returns 0 exactly when every call it makes succeeds. -/
theorem probe_ret_zero_iff (env : ProbeEnv) :
    (xlnx_spdif_probe env).1 = 0 ↔
      (env.kzalloc_ok = true ∧ IS_ERR env.get_s_axi_aclk = false ∧ env.enable_axi_clk = 0 ∧
        IS_ERR env.ioremap = false ∧ 0 ≤ env.read_mode ∧
        (if env.mode % 2 ^ 32 ≠ 0 then IS_ERR env.get_s_axis_aclk = false
         else IS_ERR env.get_m_axis_aclk = false ∧ env.irq_resource = true ∧
           env.request_irq = 0) ∧
        IS_ERR env.get_aud_clk_i = false ∧ env.enable_axis_clk = 0 ∧
        env.enable_aud_clk = 0 ∧ env.register_component = 0) := by
  have hE : (-ENOMEM : Int) ≠ 0 := by decide
  have hD : (-ENODEV : Int) ≠ 0 := by decide
  unfold xlnx_spdif_probe
  by_cases hk : (!env.kzalloc_ok) = true
  · simp only [if_pos hk]
    show (-ENOMEM : Int) = 0 ↔ _
    have hk' : env.kzalloc_ok = false := by simpa using hk
    simp [hE, hk']
  simp only [if_neg hk]
  have hk' : env.kzalloc_ok = true := by simpa using hk
  by_cases hg : IS_ERR env.get_s_axi_aclk = true
  · rw [if_pos hg]
    show PTR_ERR env.get_s_axi_aclk = 0 ↔ _
    have := PTR_ERR_ne_zero hg
    simp [hg, this]
  rw [if_neg hg]
  have hg' := IS_ERR_false_of_not hg
  by_cases he : env.enable_axi_clk ≠ 0
  · rw [if_pos he]
    show env.enable_axi_clk = 0 ↔ _
    simp [he]
  rw [if_neg he]
  have he0 : env.enable_axi_clk = 0 := not_not.mp he
  by_cases hi : IS_ERR env.ioremap = true
  · rw [if_pos hi]
    show PTR_ERR env.ioremap = 0 ↔ _
    have := PTR_ERR_ne_zero hi
    simp [hi, this]
  rw [if_neg hi]
  have hi' := IS_ERR_false_of_not hi
  by_cases hm : env.read_mode < 0
  · rw [if_pos hm]
    show env.read_mode = 0 ↔ _
    have h1 : env.read_mode ≠ 0 := by omega
    have h2 : ¬ 0 ≤ env.read_mode := by omega
    simp [h1, h2]
  rw [if_neg hm]
  have hm' : 0 ≤ env.read_mode := by omega
  by_cases hmode : env.mode % 2 ^ 32 ≠ 0
  · rw [if_pos hmode, if_pos hmode]
    by_cases hs : IS_ERR env.get_s_axis_aclk = true
    · rw [if_pos hs]
      show PTR_ERR env.get_s_axis_aclk = 0 ↔ _
      have := PTR_ERR_ne_zero hs
      simp [hs, this]
    rw [if_neg hs, probe_clocks_ret_zero_iff]
    have hs' := IS_ERR_false_of_not hs
    simp [hk', hg', he0, hi', hm', hs']
  rw [if_neg hmode, if_neg hmode]
  by_cases hs : IS_ERR env.get_m_axis_aclk = true
  · rw [if_pos hs]
    show PTR_ERR env.get_m_axis_aclk = 0 ↔ _
    have := PTR_ERR_ne_zero hs
    simp [hs, this]
  rw [if_neg hs]
  have hs' := IS_ERR_false_of_not hs
  by_cases hres : (!env.irq_resource) = true
  · rw [if_pos hres]
    show (-ENODEV : Int) = 0 ↔ _
    have hres' : env.irq_resource = false := by simpa using hres
    simp [hD, hres']
  rw [if_neg hres]
  have hres' : env.irq_resource = true := by simpa using hres
  by_cases hirq : env.request_irq ≠ 0
  · rw [if_pos hirq]
    show (-ENODEV : Int) = 0 ↔ _
    simp [hD, hirq]
  rw [if_neg hirq, probe_clocks_ret_zero_iff]
  have hirq0 : env.request_irq = 0 := not_not.mp hirq
  simp [hk', hg', he0, hi', hm', hs', hres', hirq0]

/-- The clock operations of `xlnx_spdif_probe`: an initial segment of axi, axis,
aud is enabled, each clock only after the enables before it returned 0; on a
non-zero return the same clocks are then disabled in reverse order. -/
theorem probe_clk_ops_shape (env : ProbeEnv) :
    enabled_clocks (xlnx_spdif_probe env).2.clk_ops <+:
      [Clk.axi_clk, Clk.axis_clk, Clk.aud_clk] ∧
    (Clk.axi_clk ∈ enabled_clocks (xlnx_spdif_probe env).2.clk_ops →
      env.enable_axi_clk = 0) ∧
    (Clk.axis_clk ∈ enabled_clocks (xlnx_spdif_probe env).2.clk_ops →
      env.enable_axi_clk = 0 ∧ env.enable_axis_clk = 0) ∧
    (Clk.aud_clk ∈ enabled_clocks (xlnx_spdif_probe env).2.clk_ops →
      env.enable_axi_clk = 0 ∧ env.enable_axis_clk = 0 ∧ env.enable_aud_clk = 0) ∧
    (xlnx_spdif_probe env).2.clk_ops =
      (enabled_clocks (xlnx_spdif_probe env).2.clk_ops).map ClkOp.enable ++
        (if (xlnx_spdif_probe env).1 = 0 then []
         else (enabled_clocks (xlnx_spdif_probe env).2.clk_ops).reverse.map ClkOp.disable) ∧
    ((xlnx_spdif_probe env).1 ≠ 0 →
      ∀ c, clk_enable_count (xlnx_spdif_probe env).2.clk_ops c = 0) ∧
    ((xlnx_spdif_probe env).1 = 0 →
      (xlnx_spdif_probe env).2.clk_ops =
        [ClkOp.enable Clk.axi_clk, ClkOp.enable Clk.axis_clk, ClkOp.enable Clk.aud_clk]) := by
  refine probe_elim env (fun r =>
    enabled_clocks r.2.clk_ops <+: [Clk.axi_clk, Clk.axis_clk, Clk.aud_clk] ∧
    (Clk.axi_clk ∈ enabled_clocks r.2.clk_ops → env.enable_axi_clk = 0) ∧
    (Clk.axis_clk ∈ enabled_clocks r.2.clk_ops →
      env.enable_axi_clk = 0 ∧ env.enable_axis_clk = 0) ∧
    (Clk.aud_clk ∈ enabled_clocks r.2.clk_ops →
      env.enable_axi_clk = 0 ∧ env.enable_axis_clk = 0 ∧ env.enable_aud_clk = 0) ∧
    r.2.clk_ops = (enabled_clocks r.2.clk_ops).map ClkOp.enable ++
        (if r.1 = 0 then [] else (enabled_clocks r.2.clk_ops).reverse.map ClkOp.disable) ∧
    (r.1 ≠ 0 → ∀ c, clk_enable_count r.2.clk_ops c = 0) ∧
    (r.1 = 0 → r.2.clk_ops =
        [ClkOp.enable Clk.axi_clk, ClkOp.enable Clk.axis_clk, ClkOp.enable Clk.aud_clk]))
    ?_ ?_ ?_ ?_ ?_
  · intro ret st hret hops
    simp only [hops, if_neg hret]
    refine ⟨by decide, fun h => absurd h (by decide), fun h => absurd h (by decide),
      fun h => absurd h (by decide), by decide, ?_, fun h => absurd h hret⟩
    intro _ c
    cases c <;> decide
  · intro ret st hret he hops
    simp only [hops, if_neg hret]
    refine ⟨by decide, fun _ => he, fun h => absurd h (by decide),
      fun h => absurd h (by decide), by decide, ?_, fun h => absurd h hret⟩
    intro _ c
    cases c <;> decide
  · intro ret st hret he hx hops
    simp only [hops, if_neg hret]
    refine ⟨by decide, fun _ => he, fun _ => ⟨he, hx⟩, fun h => absurd h (by decide),
      by decide, ?_, fun h => absurd h hret⟩
    intro _ c
    cases c <;> decide
  · intro ret st hret he hx hd hops
    simp only [hops, if_neg hret]
    refine ⟨by decide, fun _ => he, fun _ => ⟨he, hx⟩, fun _ => ⟨he, hx, hd⟩, by decide, ?_,
      fun h => absurd h hret⟩
    intro _ c
    cases c <;> decide
  · intro st he hx hd hops
    have h00 : ((0 : Int), st).1 = 0 := rfl
    refine ⟨?_, fun _ => he, fun _ => ⟨he, hx⟩, fun _ => ⟨he, hx, hd⟩, ?_,
      fun h => absurd h00 h, fun _ => hops⟩
    · show enabled_clocks st.clk_ops <+: _
      rw [hops]
      decide
    · show st.clk_ops = (enabled_clocks st.clk_ops).map ClkOp.enable ++
        (if (0 : Int) = 0 then [] else _)
      rw [if_pos rfl, hops]
      decide

/-- When the axi clock was enabled and enabling the axis clock fails, the run
consists of enabling and disabling the axi clock and the return is non-zero. -/
theorem probe_second_clock (env : ProbeEnv)
    (ha : Clk.axi_clk ∈ enabled_clocks (xlnx_spdif_probe env).2.clk_ops)
    (hx : env.enable_axis_clk ≠ 0) :
    (xlnx_spdif_probe env).1 ≠ 0 ∧
    (xlnx_spdif_probe env).2.clk_ops =
      [ClkOp.enable Clk.axi_clk, ClkOp.disable Clk.axi_clk] := by
  revert ha
  refine probe_elim env (fun r =>
    Clk.axi_clk ∈ enabled_clocks r.2.clk_ops →
      r.1 ≠ 0 ∧ r.2.clk_ops = [ClkOp.enable Clk.axi_clk, ClkOp.disable Clk.axi_clk])
    ?_ ?_ ?_ ?_ ?_
  · intro ret st _ hops hmem
    simp only [hops] at hmem
    exact absurd hmem (by decide)
  · intro ret st hret _ hops _
    exact ⟨hret, hops⟩
  · intro ret st _ _ hx0 _ _
    exact absurd hx0 hx
  · intro ret st _ _ hx0 _ _ _
    exact absurd hx0 hx
  · intro st _ hx0 _ _ _
    exact absurd hx0 hx

/-- C13: `xlnx_spdif_probe` enables an initial segment of axi (`s_axi_aclk`),
axis, aud (`aud_clk_i`), each clock only after the enables before it returned
0.  It returns 0 exactly when every call it makes succeeds, so every failure
gives a non-zero return; on a non-zero return the clocks it enabled are
disabled again in reverse order and no clock keeps an enable, and on return 0
all three clocks are enabled.  In particular, when the axi clock was enabled
and the enable of the axis clock fails, the run enables and disables the axi
clock only. -/
theorem C13_probe_clock_unwind (env : ProbeEnv) :
    (enabled_clocks (xlnx_spdif_probe env).2.clk_ops <+:
        [Clk.axi_clk, Clk.axis_clk, Clk.aud_clk] ∧
      (Clk.axi_clk ∈ enabled_clocks (xlnx_spdif_probe env).2.clk_ops →
        env.enable_axi_clk = 0) ∧
      (Clk.axis_clk ∈ enabled_clocks (xlnx_spdif_probe env).2.clk_ops →
        env.enable_axi_clk = 0 ∧ env.enable_axis_clk = 0) ∧
      (Clk.aud_clk ∈ enabled_clocks (xlnx_spdif_probe env).2.clk_ops →
        env.enable_axi_clk = 0 ∧ env.enable_axis_clk = 0 ∧ env.enable_aud_clk = 0) ∧
      (xlnx_spdif_probe env).2.clk_ops =
        (enabled_clocks (xlnx_spdif_probe env).2.clk_ops).map ClkOp.enable ++
          (if (xlnx_spdif_probe env).1 = 0 then []
           else (enabled_clocks
             (xlnx_spdif_probe env).2.clk_ops).reverse.map ClkOp.disable) ∧
      ((xlnx_spdif_probe env).1 ≠ 0 →
        ∀ c, clk_enable_count (xlnx_spdif_probe env).2.clk_ops c = 0) ∧
      ((xlnx_spdif_probe env).1 = 0 →
        (xlnx_spdif_probe env).2.clk_ops =
          [ClkOp.enable Clk.axi_clk, ClkOp.enable Clk.axis_clk, ClkOp.enable Clk.aud_clk])) ∧
    (Clk.axi_clk ∈ enabled_clocks (xlnx_spdif_probe env).2.clk_ops →
      env.enable_axis_clk ≠ 0 →
      (xlnx_spdif_probe env).1 ≠ 0 ∧
      (xlnx_spdif_probe env).2.clk_ops =
        [ClkOp.enable Clk.axi_clk, ClkOp.disable Clk.axi_clk]) ∧
    ((xlnx_spdif_probe env).1 = 0 ↔
      (env.kzalloc_ok = true ∧ IS_ERR env.get_s_axi_aclk = false ∧ env.enable_axi_clk = 0 ∧
        IS_ERR env.ioremap = false ∧ 0 ≤ env.read_mode ∧
        (if env.mode % 2 ^ 32 ≠ 0 then IS_ERR env.get_s_axis_aclk = false
         else IS_ERR env.get_m_axis_aclk = false ∧ env.irq_resource = true ∧
           env.request_irq = 0) ∧
        IS_ERR env.get_aud_clk_i = false ∧ env.enable_axis_clk = 0 ∧
        env.enable_aud_clk = 0 ∧ env.register_component = 0)) :=
  ⟨probe_clk_ops_shape env, probe_second_clock env, probe_ret_zero_iff env⟩

/-- Witness of C13: every call succeeds except the enable of the axis clock,
which returns -5. -/
theorem C13_probe_clock_unwind_witness :
    (xlnx_spdif_probe { ProbeEnv.ok with enable_axis_clk := -5 }).1 ≠ 0 ∧
    (xlnx_spdif_probe { ProbeEnv.ok with enable_axis_clk := -5 }).2.clk_ops =
      [ClkOp.enable Clk.axi_clk, ClkOp.disable Clk.axi_clk] :=
  (C13_probe_clock_unwind { ProbeEnv.ok with enable_axis_clk := -5 }).2.1
    (by decide) (by decide)

end XlnxSpdif
